import Mathlib

/-!
Verification of the agri-mvp analytics/validation pipeline.

Shallow embedding of `ml/analytics/config.py`, `ml/analytics/core_analytics.py`
and `ml/analytics/validators.py`.

Modelling conventions:
* Dataframes are lists of records; a record field per column.
* Timestamps are integers counting days since 1970-01-01; calendar month/year
  are recovered with a proleptic Gregorian conversion (`civilFromDays`), so
  `date.dt.month`, `to_period('M')` and `.replace(day=1)` are all expressible.
* Python floats are modelled by exact rationals; `float('nan')` cells are
  `Option` values (`none` = NaN/missing), and IEEE infinities arising from
  division by zero are modelled by the small extended type `ExtQ`.
* `round(x, d)` (and pandas `.round`) use round-half-to-even, modelled by
  `pyRound`/`roundTo`.
* Square roots of rationals (standard deviations, Pearson correlations) are
  irrational in general, so values of the form `sqrt v` are carried
  symbolically: a field stores the exact radicand `v` (see `SqrtQ`,
  `CorrField`) instead of a rounded float.
-/

-- ============================================================================
-- Numeric utilities
-- ============================================================================

/-- Python's `round` to an integer: round half to even (banker's rounding). -/
def pyRound (x : ℚ) : ℤ :=
  let f := ⌊x⌋
  let frac := x - (f : ℚ)
  if frac < 1/2 then f
  else if 1/2 < frac then f + 1
  else if f % 2 = 0 then f else f + 1

/-- Python's `round(x, d)`: round to `d` decimal places, half to even. -/
def roundTo (d : ℕ) (x : ℚ) : ℚ :=
  (pyRound (x * 10 ^ d) : ℚ) / 10 ^ d

/-- Mean of a list of rationals; `none` is pandas' NaN on an empty series. -/
def qmean (xs : List ℚ) : Option ℚ :=
  if xs.length = 0 then none else some (xs.sum / xs.length)

/-- Mean of a (known nonempty) group of values; `0` on `[]` is unreachable
in every use site because groups produced by a groupby are nonempty. -/
def qmeanD (xs : List ℚ) : ℚ :=
  xs.sum / xs.length

/-- Minimum of a list (`none` = NaN on an empty series). -/
def qminimum (xs : List ℚ) : Option ℚ :=
  match xs with
  | [] => none
  | a :: as => some (as.foldl min a)

/-- Maximum of a list (`none` = NaN on an empty series). -/
def qmaximum (xs : List ℚ) : Option ℚ :=
  match xs with
  | [] => none
  | a :: as => some (as.foldl max a)

/-- Sample variance (pandas `ddof=1`); `none` is the NaN produced for fewer
than two observations.  The reported standard deviation is its square root. -/
def qvariance (xs : List ℚ) : Option ℚ :=
  if xs.length < 2 then none
  else
    let n : ℚ := xs.length
    let mu := xs.sum / n
    some ((xs.map (fun x => (x - mu) ^ 2)).sum / (n - 1))

/-- A nonnegative square root carried symbolically: `⟨v⟩` stands for `√v`.
Used for float standard deviations, which are irrational in general. -/
structure SqrtQ where
  sq : ℚ
deriving DecidableEq, Repr

/-- Decides `a > √v` for `v ≥ 0` without computing the root. -/
def gtSqrt (a : ℚ) (v : ℚ) : Bool :=
  decide (0 < a) && decide (v < a ^ 2)

-- ============================================================================
-- Stable sorting and grouping (pandas sort_values / groupby)
-- ============================================================================

/-- Insert `a` before the first element `b` with `le a b`; building a sort
from this is stable (equal keys keep their original order). -/
def insertSorted (le : α → α → Bool) (a : α) : List α → List α
  | [] => [a]
  | b :: bs => if le a b then a :: b :: bs else b :: insertSorted le a bs

/-- Stable insertion sort (model of `sort_values`). -/
def sortBy (le : α → α → Bool) (l : List α) : List α :=
  l.foldr (insertSorted le) []

/-- Deduplicate keeping the first occurrence (model of `Series.unique`
and of dict-key insertion order). -/
def dedupAux [BEq α] (seen : List α) : List α → List α
  | [] => []
  | a :: as =>
    if seen.contains a then dedupAux seen as
    else a :: dedupAux (a :: seen) as

def dedupKeepFirst [BEq α] (l : List α) : List α :=
  dedupAux [] l

/-- Decidable string order used for pandas' sorted groupby keys
(`String.lt` is by definition the lexicographic order on `.data`). -/
def strLe (a b : String) : Bool :=
  decide (a.data < b.data) || a == b

/-- The sorted distinct keys of a groupby. -/
def groupKeys (key : β → String) (rows : List β) : List String :=
  sortBy strLe (dedupKeepFirst (rows.map key))

/-- Model of `groupby(key)[val].mean()` as a sorted association list. -/
def groupMeanBy (key : β → String) (val : β → ℚ) (rows : List β) :
    List (String × ℚ) :=
  (groupKeys key rows).map
    (fun k => (k, qmeanD ((rows.filter (fun r => key r == k)).map val)))

/-- Model of `groupby(key)[val].sum()` as a sorted association list. -/
def groupSumBy (key : β → String) (val : β → ℚ) (rows : List β) :
    List (String × ℚ) :=
  (groupKeys key rows).map
    (fun k => (k, ((rows.filter (fun r => key r == k)).map val).sum))

/-- Model of `Series.idxmax`: the first entry attaining the maximum value
(replace the running best only on a strict increase). -/
def maxEntryBySnd : List (α × ℚ) → Option (α × ℚ)
  | [] => none
  | p :: ps => some (ps.foldl (fun b q => if b.2 < q.2 then q else b) p)

/-- Model of `Series.idxmin`: the first entry attaining the minimum value. -/
def minEntryBySnd : List (α × ℚ) → Option (α × ℚ)
  | [] => none
  | p :: ps => some (ps.foldl (fun b q => if q.2 < b.2 then q else b) p)

-- ============================================================================
-- Calendar (days since 1970-01-01 ↔ proleptic Gregorian)
-- ============================================================================

/-- Civil date from a day count (Howard Hinnant's `civil_from_days`
algorithm): returns `(year, month, day)` with day 0 = 1970-01-01. -/
def civilFromDays (z0 : ℤ) : ℤ × ℕ × ℕ :=
  let z := z0 + 719468
  let era := (if 0 ≤ z then z else z - 146096) / 146097
  let doe := z - era * 146097
  let yoe := (doe - doe / 1460 + doe / 36524 - doe / 146096) / 365
  let doy := doe - (365 * yoe + yoe / 4 - yoe / 100)
  let mp := (5 * doy + 2) / 153
  let d := doy - (153 * mp + 2) / 5 + 1
  let m := if mp < 10 then mp + 3 else mp - 9
  ((if m ≤ 2 then yoe + era * 400 + 1 else yoe + era * 400), m.toNat, d.toNat)

/-- Calendar month (1..12) of a day count, as in `date.dt.month`. -/
def monthOf (z : ℤ) : ℕ :=
  (civilFromDays z).2.1

/-- Month period (year, month) of a day count, as in `to_period('M')`. -/
def ymOf (z : ℤ) : ℤ × ℕ :=
  ((civilFromDays z).1, (civilFromDays z).2.1)

-- ============================================================================
-- Configuration (ml/analytics/config.py)
-- ============================================================================

def REGIONS : List String :=
  ["Mbeya", "Iringa", "Ruvuma", "Rukwa", "Morogoro", "Dodoma", "Arusha",
   "Kilimanjaro", "Dar es Salaam", "Mwanza", "Shinyanga"]

def MARKETS : List String :=
  ["Mbeya Central", "Iringa Central", "Songea Central", "Sumbawanga Central",
   "Morogoro Central", "Dodoma Central", "Arusha Central", "Moshi Central",
   "Kariakoo", "Mwenge", "Mwanza Central", "Shinyanga Central"]

def QUALITY_GRADES : List String := ["A", "B", "C"]

def MASIKA_HARVEST : List ℕ := [6, 7, 8]

def VULI_HARVEST : List ℕ := [1, 2]

def LEAN_SEASON : List ℕ := [3, 4, 5]

def MASIKA_PRODUCTION_PCT : ℚ := 65 / 100

def VULI_PRODUCTION_PCT : ℚ := 35 / 100

def STORAGE_CRITICAL_HIGH : ℚ := 90

def STORAGE_CRITICAL_LOW : ℚ := 10

def STORAGE_OPTIMAL_MIN : ℚ := 40

def STORAGE_OPTIMAL_MAX : ℚ := 80

def PRICE_MIN_NORMAL : ℚ := 800

def PRICE_MAX_NORMAL : ℚ := 2500

def EXPECTED_PREMIUMS (g : String) : ℚ :=
  if g = "A" then 25 / 100 else if g = "B" then 12 / 100 else 0

/-- Model of `COMPARISON_PERIODS.get(period, 30)`. -/
def comparisonPeriods (p : String) : ℤ :=
  if p = "current" then 30
  else if p = "month" then 30
  else if p = "quarter" then 90
  else if p = "season" then 180
  else if p = "year" then 365
  else 30

def CURRENCY : String := "TZS"

/-- The `DECIMAL_PLACES` lookup: price 2, quantity 2, percentage 1, utilization 1. -/
def DP_PRICE : ℕ := 2

def DP_QUANTITY : ℕ := 2

def DP_PERCENTAGE : ℕ := 1

def DP_UTILIZATION : ℕ := 1

-- ============================================================================
-- Core data model (rows of the backing CSV files, analytics view)
-- ============================================================================

structure ProdRow where
  date : ℤ
  region : String
  quantity_tons : ℚ
deriving DecidableEq, Repr

structure PriceRow where
  date : ℤ
  market : String
  region : String
  quality_grade : String
  price_per_kg_tzs : ℚ
deriving DecidableEq, Repr

structure StorRow where
  date : ℤ
  warehouse_id : String
  region : String
  quantity_stored_tons : ℚ
  capacity_tons : ℚ
deriving DecidableEq, Repr

/-- One row of `forecasts/production/forecast_summary.csv`. -/
structure ProdFRow where
  region : String
  historical_avg : ℚ
  forecast_avg : ℚ
  growth_pct : ℚ
deriving DecidableEq, Repr

/-- One row of `forecasts/prices/forecast_summary_all_markets.csv`. -/
structure PriceFRow where
  month : ℤ × ℕ
  market : String
  grade : String
  yhat : ℚ
deriving DecidableEq, Repr

/-- The environment an analytics call runs in: the system clock and the
contents of the backing files.  The optional forecast summaries are `none`
when the file does not exist. -/
structure Env where
  now : ℤ
  production : List ProdRow
  prices : List PriceRow
  storage : List StorRow
  prodForecast : Option (List ProdFRow)
  priceForecast : Option (List PriceFRow)
deriving DecidableEq, Repr

-- ============================================================================
-- Data loaders (state-passing: a read returns the state unchanged)
-- ============================================================================

/-- Model of `load_production_data`: `read_csv` + `to_datetime`; reading does not
change the environment. -/
def load_production_data (e : Env) : Env × List ProdRow :=
  (e, e.production)

/-- Model of `load_price_data`. -/
def load_price_data (e : Env) : Env × List PriceRow :=
  (e, e.prices)

/-- Model of `load_storage_data`. -/
def load_storage_data (e : Env) : Env × List StorRow :=
  (e, e.storage)

/-- Model of `load_production_forecasts`: `None` when the summary file is absent. -/
def load_production_forecasts (e : Env) : Env × Option (List ProdFRow) :=
  (e, e.prodForecast)

/-- Model of `load_price_forecasts`: `None` when the summary file is absent. -/
def load_price_forecasts (e : Env) : Env × Option (List PriceFRow) :=
  (e, e.priceForecast)

-- ============================================================================
-- Shared storage helper: latest record per warehouse
-- ============================================================================

/-- The last row (in date-sorted order) whose warehouse is `w`. -/
def lastForWarehouse (w : String) (sorted : List StorRow) : Option StorRow :=
  (sorted.filter (fun r => r.warehouse_id == w)).getLast?

/-- Model of `storage_df.sort_values('date').groupby('warehouse_id').last()`:
one row per warehouse (keys in ascending order), the row with the latest
date (sorting is modelled as stable, so a tie keeps the later file row). -/
def latestStorage (rows : List StorRow) : List StorRow :=
  (groupKeys (fun r => r.warehouse_id) rows).filterMap
    (fun w => lastForWarehouse w (sortBy (fun a b => decide (a.date ≤ b.date)) rows))

-- ============================================================================
-- Function 1: get_national_summary
-- ============================================================================

structure ProductionKPI where
  total_tons : ℚ
  avg_per_region : ℚ
  active_regions : ℕ
deriving DecidableEq, Repr

structure PriceKPI where
  avg_price_tzs : Option ℚ
  currency : String
  active_markets : ℕ
deriving DecidableEq, Repr

structure StorageKPI where
  total_stored_tons : ℚ
  total_capacity_tons : ℚ
  utilization_percent : ℚ
  active_warehouses : ℕ
deriving DecidableEq, Repr

structure NationalSummary where
  period : String
  period_days : ℤ
  production : ProductionKPI
  prices : PriceKPI
  storage : StorageKPI
  generated_at : ℤ
deriving DecidableEq, Repr

/-- Model of `get_national_summary(period)`.  Note (faithful to the source): the
storage totals are taken from the latest record per warehouse over the
WHOLE table — the window-filtered `storage_period` is computed but unused. -/
def get_national_summary (e0 : Env) (period : String) : Env × NationalSummary :=
  let (e, production_df) := load_production_data e0
  let (e, price_df) := load_price_data e
  let (e, storage_df) := load_storage_data e
  let days := comparisonPeriods period
  let cutoff_date := e.now - days
  let prod_period := production_df.filter (fun r => decide (cutoff_date ≤ r.date))
  let price_period := price_df.filter (fun r => decide (cutoff_date ≤ r.date))
  let _storage_period := storage_df.filter (fun r => decide (cutoff_date ≤ r.date))
  let total_production := (prod_period.map (fun r => r.quantity_tons)).sum
  let avg_price := qmean (price_period.map (fun r => r.price_per_kg_tzs))
  let latest_storage := latestStorage storage_df
  let total_stored := (latest_storage.map (fun r => r.quantity_stored_tons)).sum
  let total_capacity := (latest_storage.map (fun r => r.capacity_tons)).sum
  let storage_utilization :=
    if 0 < total_capacity then total_stored / total_capacity * 100 else 0
  let active_regions := (dedupKeepFirst (prod_period.map (fun r => r.region))).length
  let active_markets := (dedupKeepFirst (price_period.map (fun r => r.market))).length
  let active_warehouses := latest_storage.length
  (e,
   { period := period
     period_days := days
     production :=
       { total_tons := roundTo DP_QUANTITY total_production
         avg_per_region :=
           if 0 < active_regions then
             roundTo DP_QUANTITY (total_production / active_regions)
           else 0
         active_regions := active_regions }
     prices :=
       { avg_price_tzs := (avg_price).map (roundTo DP_PRICE)
         currency := CURRENCY
         active_markets := active_markets }
     storage :=
       { total_stored_tons := roundTo DP_QUANTITY total_stored
         total_capacity_tons := roundTo DP_QUANTITY total_capacity
         utilization_percent := roundTo DP_UTILIZATION storage_utilization
         active_warehouses := active_warehouses }
     generated_at := e.now })

-- ============================================================================
-- Function 2: get_production_summary
-- ============================================================================

structure CurrentPeriod where
  total_production_tons : ℚ
  avg_monthly_tons : Option ℚ
  yoy_growth_percent : ℚ
deriving DecidableEq, Repr

structure ForecastComparison where
  forecast_avg_tons : ℚ
  historical_avg_tons : ℚ
  growth_percent : ℚ
deriving DecidableEq, Repr

structure ProductionSummary where
  region : String
  period : String
  current_period : CurrentPeriod
  regional_breakdown : List (String × ℚ)
  forecast_comparison : Option ForecastComparison
  generated_at : ℤ
deriving DecidableEq, Repr

/-- The national-aggregation branch of the forecast-comparison `try` block:
sum `forecast_avg` and `historical_avg` over all rows of the summary file. -/
def nationalForecastAgg (fdf : List ProdFRow) : ForecastComparison :=
  let forecast_total := (fdf.map (fun r => r.forecast_avg)).sum
  let historical_total := (fdf.map (fun r => r.historical_avg)).sum
  let growth_pct :=
    if 0 < historical_total then
      (forecast_total - historical_total) / historical_total * 100
    else 0
  { forecast_avg_tons := roundTo DP_QUANTITY forecast_total
    historical_avg_tons := roundTo DP_QUANTITY historical_total
    growth_percent := roundTo DP_PERCENTAGE growth_pct }

/-- The forecast-comparison `try`/`except` block of `get_production_summary`.

Faithful to the source's control flow: `region_forecast` is assigned only
inside `if region:`.  When `region` is `None` the subsequent
`len(region_forecast)` raises `NameError` (the variable is unbound), the
bare `except` swallows it, and `forecast_comparison` stays `None` — the
"National level - aggregate all regions" branch is unreachable for
unscoped calls.  When a region is given but has no row in the summary,
control falls into that national-aggregation `else` branch instead. -/
def forecastComparisonCalc (region : Option String)
    (fdf : List ProdFRow) : Option ForecastComparison :=
  match region with
  | none => none
  | some r =>
    let region_forecast := fdf.filter (fun row => row.region == r)
    match region_forecast with
    | row :: _ =>
      some { forecast_avg_tons := roundTo DP_QUANTITY row.forecast_avg
             historical_avg_tons := roundTo DP_QUANTITY row.historical_avg
             growth_percent := roundTo DP_PERCENTAGE row.growth_pct }
    | [] => some (nationalForecastAgg fdf)

/-- Monthly production totals of a window: `groupby(to_period('M')).sum()`,
keys (year, month) in ascending order. -/
def monthlySums (rows : List ProdRow) : List ((ℤ × ℕ) × ℚ) :=
  let keys := dedupKeepFirst (rows.map (fun r => ymOf r.date))
  let sorted := sortBy
    (fun a b => decide (a.1 < b.1) || (a.1 == b.1 && decide (a.2 ≤ b.2))) keys
  sorted.map (fun k =>
    (k, ((rows.filter (fun r => ymOf r.date == k)).map
      (fun r => r.quantity_tons)).sum))

/-- Model of `get_production_summary(region, period)`. -/
def get_production_summary (e0 : Env) (region : Option String)
    (period : String) : Env × ProductionSummary :=
  let (e, production_df0) := load_production_data e0
  let (e, forecasts_df) := load_production_forecasts e
  let production_df : List ProdRow :=
    match region with
    | some r => production_df0.filter (fun row => row.region == r)
    | none => production_df0
  let days := comparisonPeriods period
  let cutoff_date := e.now - days
  let prod_period := production_df.filter (fun r => decide (cutoff_date ≤ r.date))
  let total_production := (prod_period.map (fun r => r.quantity_tons)).sum
  let avg_monthly := qmean ((monthlySums prod_period).map (fun p => p.2))
  let yoy_cutoff := cutoff_date - 365
  let yoy_period := production_df.filter
    (fun r => decide (yoy_cutoff ≤ r.date) && decide (r.date < cutoff_date))
  let yoy_production := (yoy_period.map (fun r => r.quantity_tons)).sum
  let yoy_growth :=
    if 0 < yoy_production then
      (total_production - yoy_production) / yoy_production * 100
    else 0
  let regional_breakdown :=
    (groupSumBy (fun r => r.region) (fun r => r.quantity_tons) prod_period).map
      (fun p => (p.1, roundTo DP_QUANTITY p.2))
  let forecast_comparison :=
    match forecasts_df with
    | none => none
    | some fdf => forecastComparisonCalc region fdf
  (e,
   { region := region.getD "National"
     period := period
     current_period :=
       { total_production_tons := roundTo DP_QUANTITY total_production
         avg_monthly_tons := avg_monthly.map (roundTo DP_QUANTITY)
         yoy_growth_percent := roundTo DP_PERCENTAGE yoy_growth }
     regional_breakdown := regional_breakdown
     forecast_comparison := forecast_comparison
     generated_at := e.now })

-- ============================================================================
-- Extended rationals (IEEE float results of division by zero)
-- ============================================================================

/-- Result of a float division that may produce `inf`/`-inf`/`nan`. -/
inductive ExtQ
  | nan
  | pinf
  | ninf
  | fin (q : ℚ)
deriving DecidableEq, Repr

/-- Float semantics of `x / y * 100` on total values. -/
def qdivPct (x y : ℚ) : ExtQ :=
  if y = 0 then (if 0 < x then .pinf else if x < 0 then .ninf else .nan)
  else .fin (x / y * 100)

/-- Model of `.round(d)` on a float cell: finite values round, `inf`/`nan` unchanged. -/
def ExtQ.roundCell (d : ℕ) : ExtQ → ExtQ
  | .fin q => .fin (roundTo d q)
  | x => x

/-- Decides `e > c` with IEEE comparison semantics (`nan` compares false). -/
def ExtQ.gtQ (e : ExtQ) (c : ℚ) : Bool :=
  match e with
  | .nan => false
  | .pinf => true
  | .ninf => false
  | .fin q => decide (c < q)

/-- Decides `e < c` with IEEE comparison semantics. -/
def ExtQ.ltQ (e : ExtQ) (c : ℚ) : Bool :=
  match e with
  | .nan => false
  | .pinf => false
  | .ninf => true
  | .fin q => decide (q < c)

/-- Decides `e ≥ c` with IEEE comparison semantics. -/
def ExtQ.geQ (e : ExtQ) (c : ℚ) : Bool :=
  match e with
  | .nan => false
  | .pinf => true
  | .ninf => false
  | .fin q => decide (c ≤ q)

/-- Decides `e ≤ c` with IEEE comparison semantics. -/
def ExtQ.leQ (e : ExtQ) (c : ℚ) : Bool :=
  match e with
  | .nan => false
  | .pinf => false
  | .ninf => true
  | .fin q => decide (q ≤ c)

-- ============================================================================
-- Function 3: get_price_analysis
-- ============================================================================

structure CurrentPrices where
  avg_price_tzs : Option ℚ
  min_price_tzs : Option ℚ
  max_price_tzs : Option ℚ
  /-- Holds `round(std, 2)` of the source; the model keeps the exact variance
  under the symbolic square root (see `SqrtQ`). -/
  volatility : Option SqrtQ
  currency : String
deriving DecidableEq, Repr

structure GradePremiumEntry where
  actual_premium_percent : ℚ
  expected_premium_percent : ℚ
deriving DecidableEq, Repr

structure GradeAnalysis where
  prices_by_grade : List (String × ℚ)
  grade_premiums : Option (List (String × GradePremiumEntry))
deriving DecidableEq, Repr

structure PriceForecastComparison where
  forecast_next_month : ℚ
  vs_current : ℚ
deriving DecidableEq, Repr

structure PriceAnalysis where
  market : String
  grade : String
  current_prices : CurrentPrices
  market_comparison : Option (List (String × ℚ))
  grade_analysis : Option GradeAnalysis
  forecast_comparison : Option PriceForecastComparison
  generated_at : ℤ
deriving DecidableEq, Repr

/-- Model of `get_price_analysis(market, grade)`. -/
def get_price_analysis (e0 : Env) (market : Option String)
    (grade : Option String) : Env × PriceAnalysis :=
  let (e, price_df0) := load_price_data e0
  let (e, forecasts_df) := load_price_forecasts e
  let price_df1 : List PriceRow :=
    match market with
    | some m => price_df0.filter (fun r => r.market == m)
    | none => price_df0
  let price_df : List PriceRow :=
    match grade with
    | some g => price_df1.filter (fun r => r.quality_grade == g)
    | none => price_df1
  let cutoff := e.now - 7
  let current_prices := price_df.filter (fun r => decide (cutoff ≤ r.date))
  let priceVals := current_prices.map (fun r => r.price_per_kg_tzs)
  let avg_price := qmean priceVals
  let market_prices : Option (List (String × ℚ)) :=
    match market with
    | some _ => none
    | none =>
      some ((sortBy (fun a b => decide (b.2 ≤ a.2))
        (groupMeanBy (fun r => r.market) (fun r => r.price_per_kg_tzs)
          current_prices)).map (fun p => (p.1, roundTo DP_PRICE p.2)))
  let grade_prices : List (String × ℚ) :=
    (groupMeanBy (fun r => r.quality_grade) (fun r => r.price_per_kg_tzs)
      current_prices).map (fun p => (p.1, roundTo DP_PRICE p.2))
  let grade_premiums : Option (List (String × GradePremiumEntry)) :=
    match grade_prices.lookup "C" with
    | none => none
    | some base_price =>
      some (QUALITY_GRADES.filterMap (fun g =>
        match grade_prices.lookup g with
        | none => none
        | some pg =>
          let premium_pct :=
            if 0 < base_price then (pg - base_price) / base_price * 100 else 0
          some (g, { actual_premium_percent := roundTo DP_PERCENTAGE premium_pct
                     expected_premium_percent :=
                       roundTo DP_PERCENTAGE (EXPECTED_PREMIUMS g * 100) })))
  let forecast_comparison : Option PriceForecastComparison :=
    match forecasts_df with
    | none => none
    | some fdf =>
      let future_month := ymOf (e.now + 30)
      let f1 := fdf.filter (fun r => r.month == future_month)
      let f2 : List PriceFRow :=
        match market with
        | some m => f1.filter (fun r => r.market == m)
        | none => f1
      let forecast_data : List PriceFRow :=
        match grade with
        | some g => f2.filter (fun r => r.grade == g)
        | none => f2
      match qmean (forecast_data.map (fun r => r.yhat)) with
      | none => none
      | some forecast_avg =>
        some { forecast_next_month := roundTo DP_PRICE forecast_avg
               vs_current :=
                 match avg_price with
                 | some a =>
                   if 0 < a then
                     roundTo DP_PERCENTAGE ((forecast_avg - a) / a * 100)
                   else 0
                 | none => 0 }
  (e,
   { market := market.getD "All Markets"
     grade := grade.getD "All Grades"
     current_prices :=
       { avg_price_tzs := avg_price.map (roundTo DP_PRICE)
         min_price_tzs := (qminimum priceVals).map (roundTo DP_PRICE)
         max_price_tzs := (qmaximum priceVals).map (roundTo DP_PRICE)
         volatility := (qvariance priceVals).map SqrtQ.mk
         currency := CURRENCY }
     market_comparison := market_prices
     grade_analysis :=
       match grade with
       | some _ => none
       | none => some { prices_by_grade := grade_prices
                        grade_premiums := grade_premiums }
     forecast_comparison := forecast_comparison
     generated_at := e.now })

-- ============================================================================
-- Function 4: get_storage_status
-- ============================================================================

structure WarehouseStatus where
  warehouse_id : String
  region : String
  quantity_stored_tons : ℚ
  capacity_tons : ℚ
  utilization_percent : ExtQ
deriving DecidableEq, Repr

/-- The interpolated alert message, carrying its numeric payloads. -/
inductive AlertMessage
  | overCapacity (count : ℕ) (threshold : ℚ)
  | underCapacity (count : ℕ) (threshold : ℚ)
deriving DecidableEq, Repr

structure StorageAlert where
  type : String
  severity : String
  message : AlertMessage
  warehouses : List String
deriving DecidableEq, Repr

structure UtilizationCategories where
  optimal : ℕ
  overstocked : ℕ
  understocked : ℕ
deriving DecidableEq, Repr

/-- The `warehouse_status` field has three shapes in the source: the full list
(unscoped), the single matching record, or `None`. -/
inductive WStatusField
  | all (ws : List WarehouseStatus)
  | one (w : WarehouseStatus)
  | missing
deriving DecidableEq, Repr

structure StorageStatus where
  warehouse : String
  national_summary : StorageKPI
  utilization_categories : UtilizationCategories
  warehouse_status : WStatusField
  alerts : List StorageAlert
  generated_at : ℤ
deriving DecidableEq, Repr

/-- The per-warehouse records with the rounded utilization column. -/
def warehouseRecords (latest : List StorRow) : List WarehouseStatus :=
  latest.map (fun r =>
    { warehouse_id := r.warehouse_id
      region := r.region
      quantity_stored_tons := r.quantity_stored_tons
      capacity_tons := r.capacity_tons
      utilization_percent :=
        (qdivPct r.quantity_stored_tons r.capacity_tons).roundCell
          DP_UTILIZATION })

/-- Model of `get_storage_status(warehouse)`. -/
def get_storage_status (e0 : Env) (warehouse : Option String) :
    Env × StorageStatus :=
  let (e, storage_df) := load_storage_data e0
  let latest0 := latestStorage storage_df
  let latest : List StorRow :=
    match warehouse with
    | some w => latest0.filter (fun r => r.warehouse_id == w)
    | none => latest0
  let withUtil := warehouseRecords latest
  let total_stored := (latest.map (fun r => r.quantity_stored_tons)).sum
  let total_capacity := (latest.map (fun r => r.capacity_tons)).sum
  let national_utilization :=
    if 0 < total_capacity then total_stored / total_capacity * 100 else 0
  let overstocked :=
    withUtil.filter (fun w => w.utilization_percent.gtQ STORAGE_CRITICAL_HIGH)
  let understocked :=
    withUtil.filter (fun w => w.utilization_percent.ltQ STORAGE_CRITICAL_LOW)
  let optimal := withUtil.filter (fun w =>
    w.utilization_percent.geQ STORAGE_OPTIMAL_MIN &&
    w.utilization_percent.leQ STORAGE_OPTIMAL_MAX)
  let alerts : List StorageAlert :=
    (if 0 < overstocked.length then
      [{ type := "overstocked"
         severity := "high"
         message := .overCapacity overstocked.length STORAGE_CRITICAL_HIGH
         warehouses := overstocked.map (fun w => w.warehouse_id) }]
     else []) ++
    (if 0 < understocked.length then
      [{ type := "understocked"
         severity := "medium"
         message := .underCapacity understocked.length STORAGE_CRITICAL_LOW
         warehouses := understocked.map (fun w => w.warehouse_id) }]
     else [])
  (e,
   { warehouse := warehouse.getD "All Warehouses"
     national_summary :=
       { total_stored_tons := roundTo DP_QUANTITY total_stored
         total_capacity_tons := roundTo DP_QUANTITY total_capacity
         utilization_percent := roundTo DP_UTILIZATION national_utilization
         active_warehouses := latest.length }
     utilization_categories :=
       { optimal := optimal.length
         overstocked := overstocked.length
         understocked := understocked.length }
     warehouse_status :=
       match warehouse with
       | none => .all withUtil
       | some _ =>
         match withUtil with
         | w :: _ => .one w
         | [] => .missing
     alerts := alerts
     generated_at := e.now })

-- ============================================================================
-- Function 5: get_seasonal_pattern
-- ============================================================================

/-- Sorted distinct ℕ keys of a groupby. -/
def groupKeysNat (key : β → ℕ) (rows : List β) : List ℕ :=
  sortBy (fun a b => decide (a ≤ b)) (dedupKeepFirst (rows.map key))

/-- Model of `groupby(key)[val].mean()` for an ℕ key (calendar months). -/
def groupMeanByNat (key : β → ℕ) (val : β → ℚ) (rows : List β) :
    List (ℕ × ℚ) :=
  (groupKeysNat key rows).map
    (fun k => (k, qmeanD ((rows.filter (fun r => key r == k)).map val)))

def month_names (m : ℕ) : String :=
  if m = 1 then "Jan" else if m = 2 then "Feb" else if m = 3 then "Mar"
  else if m = 4 then "Apr" else if m = 5 then "May" else if m = 6 then "Jun"
  else if m = 7 then "Jul" else if m = 8 then "Aug" else if m = 9 then "Sep"
  else if m = 10 then "Oct" else if m = 11 then "Nov" else "Dec"

structure SeasonBlock where
  harvest_months : List String
  production_share_percent : ℚ
  characteristics : String
deriving DecidableEq, Repr

structure LeanBlock where
  months : List String
  characteristics : String
deriving DecidableEq, Repr

structure SeasonalPatterns where
  masika_season : SeasonBlock
  vuli_season : SeasonBlock
  lean_season : LeanBlock
deriving DecidableEq, Repr

structure MonthlyAverages where
  production : List (ℕ × ℚ)
  prices : List (ℕ × ℚ)
deriving DecidableEq, Repr

structure SeasonalInsights where
  peak_production_month : String
  low_production_month : String
  peak_price_month : String
  low_price_month : String
deriving DecidableEq, Repr

structure CalendarEntry where
  month_number : ℕ
  season_type : String
  avg_production_tons : ℚ
  avg_price_tzs : ℚ
deriving DecidableEq, Repr

structure SeasonalPattern where
  crop : String
  seasonal_patterns : SeasonalPatterns
  monthly_averages : MonthlyAverages
  insights : SeasonalInsights
  seasonal_calendar : List (String × CalendarEntry)
  generated_at : ℤ
deriving DecidableEq, Repr

/-- Model of `get_seasonal_pattern(crop)`.  `max()`/`min()` on an empty dict raises
`ValueError`, so the call fails (returns `none`) when either the production
or the price table is empty. -/
def get_seasonal_pattern (e0 : Env) (crop : String) :
    Env × Option SeasonalPattern :=
  let (e, production_df) := load_production_data e0
  let (e, price_df) := load_price_data e
  let monthly_production :=
    (groupMeanByNat (fun r => monthOf r.date) (fun r => r.quantity_tons)
      production_df).map (fun p => (p.1, roundTo DP_QUANTITY p.2))
  let monthly_prices :=
    (groupMeanByNat (fun r => monthOf r.date) (fun r => r.price_per_kg_tzs)
      price_df).map (fun p => (p.1, roundTo DP_PRICE p.2))
  let result : Option SeasonalPattern :=
    match maxEntryBySnd monthly_production, minEntryBySnd monthly_production,
          maxEntryBySnd monthly_prices, minEntryBySnd monthly_prices with
    | some peakProd, some lowProd, some peakPrice, some lowPrice =>
      let seasonal_calendar := (List.range 12).map (fun i =>
        let month := i + 1
        let season_type :=
          if MASIKA_HARVEST.contains month then "masika_harvest"
          else if VULI_HARVEST.contains month then "vuli_harvest"
          else if LEAN_SEASON.contains month then "lean_season"
          else "normal"
        (month_names month,
         { month_number := month
           season_type := season_type
           avg_production_tons := ((monthly_production.lookup month).getD 0)
           avg_price_tzs := ((monthly_prices.lookup month).getD 0) }))
      some
        { crop := crop
          seasonal_patterns :=
            { masika_season :=
                { harvest_months := MASIKA_HARVEST.map month_names
                  production_share_percent :=
                    roundTo DP_PERCENTAGE (MASIKA_PRODUCTION_PCT * 100)
                  characteristics :=
                    "Main harvest - highest production, lowest prices" }
              vuli_season :=
                { harvest_months := VULI_HARVEST.map month_names
                  production_share_percent :=
                    roundTo DP_PERCENTAGE (VULI_PRODUCTION_PCT * 100)
                  characteristics :=
                    "Secondary harvest - moderate production and prices" }
              lean_season :=
                { months := LEAN_SEASON.map month_names
                  characteristics :=
                    "Pre-harvest period - low production, high prices" } }
          monthly_averages :=
            { production := monthly_production
              prices := monthly_prices }
          insights :=
            { peak_production_month := month_names peakProd.1
              low_production_month := month_names lowProd.1
              peak_price_month := month_names peakPrice.1
              low_price_month := month_names lowPrice.1 }
          seasonal_calendar := seasonal_calendar
          generated_at := e.now }
    | _, _, _, _ => none
  (e, result)

-- ============================================================================
-- Function 6: get_forecast_accuracy
-- ============================================================================

structure RegionalMetric where
  forecast_avg_tons : ℚ
  historical_avg_tons : ℚ
  growth_percent : ℚ
  status : String
deriving DecidableEq, Repr

structure ProductionModels where
  by_region : List (String × RegionalMetric)
  model_type : String
  status : String
  total_models : ℕ
deriving DecidableEq, Repr

structure PriceModels where
  total_models : ℕ
  model_type : String
  status : String
deriving DecidableEq, Repr

structure OverallPerformance where
  production_models_active : ℕ
  price_models_active : ℕ
  last_evaluation : ℤ
  status : String
deriving DecidableEq, Repr

structure ForecastAccuracy where
  production_models : Option ProductionModels
  price_models : Option PriceModels
  overall_performance : OverallPerformance
deriving DecidableEq, Repr

/-- Python-dict insertion: keep first-appearance key order, overwrite the
value on a repeated key. -/
def upsert [BEq κ] (k : κ) (v : ν) : List (κ × ν) → List (κ × ν)
  | [] => [(k, v)]
  | (k', v') :: rest =>
    if k' == k then (k', v) :: rest else (k', v') :: upsert k v rest

/-- Model of `get_forecast_accuracy()`.  The source loads the price forecasts twice;
both reads are state-preserving.  The `36` default for the price-model
count applies when the summary lacks market/grade columns; the modelled
schema always has them, so the grouped count is used whenever the file
exists, and `36` only in the `overall_performance` fallback when it does
not. -/
def get_forecast_accuracy (e0 : Env) : Env × ForecastAccuracy :=
  let (e, _price_forecasts0) := load_price_forecasts e0
  let (e, prod_forecasts) := load_production_forecasts e
  let (e, price_forecasts) := load_price_forecasts e
  let production_models : Option ProductionModels :=
    match prod_forecasts with
    | none => none
    | some fdf =>
      let regional_metrics := fdf.foldl (fun acc row =>
        upsert row.region
          { forecast_avg_tons := roundTo DP_QUANTITY row.forecast_avg
            historical_avg_tons := roundTo DP_QUANTITY row.historical_avg
            growth_percent := roundTo DP_PERCENTAGE row.growth_pct
            status := "active" } acc) []
      some { by_region := regional_metrics
             model_type := "Prophet"
             status := "active"
             total_models := regional_metrics.length }
  let price_models : Option PriceModels :=
    match price_forecasts with
    | none => none
    | some fdf =>
      some { total_models :=
               (dedupKeepFirst (fdf.map (fun r => (r.market, r.grade)))).length
             model_type := "Prophet"
             status := "active" }
  (e,
   { production_models := production_models
     price_models := price_models
     overall_performance :=
       { production_models_active :=
           match production_models with
           | some m => m.by_region.length
           | none => 0
         price_models_active :=
           match price_models with
           | some m => m.total_models
           | none => 36
         last_evaluation := e.now
         status := "All models operational" } })

-- ============================================================================
-- Function 7: get_supply_demand_balance
-- ============================================================================

/-- Ordering of month periods (year, month). -/
def ymLe (a b : ℤ × ℕ) : Bool :=
  decide (a.1 < b.1) || (a.1 == b.1 && decide (a.2 ≤ b.2))

/-- Sorted distinct month-period keys of a groupby. -/
def groupKeysYM (key : β → ℤ × ℕ) (rows : List β) : List (ℤ × ℕ) :=
  sortBy ymLe (dedupKeepFirst (rows.map key))

/-- Model of `groupby(to_period('M'))[val].mean()`. -/
def groupMeanByYM (key : β → ℤ × ℕ) (val : β → ℚ) (rows : List β) :
    List ((ℤ × ℕ) × ℚ) :=
  (groupKeysYM key rows).map
    (fun k => (k, qmeanD ((rows.filter (fun r => key r == k)).map val)))

/-- Monthly production totals joined with monthly mean prices on the month
key (`pd.DataFrame({...}).dropna()`): only months carrying both a
production and a price observation survive, in ascending month order. -/
def sdbMonthlyPairs (production : List ProdRow) (prices : List PriceRow) :
    List (ℚ × ℚ) :=
  let monthly_production := monthlySums production
  let monthly_price :=
    groupMeanByYM (fun r => ymOf r.date) (fun r => r.price_per_kg_tzs) prices
  monthly_production.filterMap
    (fun p => (monthly_price.lookup p.1).map (fun v => (p.2, v)))

/-- Computes `Σ (x-μx)(y-μy)` over the joined pairs (the Pearson numerator up to
the common `1/(n-1)` factor, which cancels in the correlation). -/
def covSum (pairs : List (ℚ × ℚ)) : ℚ :=
  let mx := qmeanD (pairs.map (fun p => p.1))
  let my := qmeanD (pairs.map (fun p => p.2))
  (pairs.map (fun p => (p.1 - mx) * (p.2 - my))).sum

/-- Computes `Σ (x-μx)²` over the first components. -/
def varSumFst (pairs : List (ℚ × ℚ)) : ℚ :=
  let mx := qmeanD (pairs.map (fun p => p.1))
  (pairs.map (fun p => (p.1 - mx) ^ 2)).sum

/-- Computes `Σ (y-μy)²` over the second components. -/
def varSumSnd (pairs : List (ℚ × ℚ)) : ℚ :=
  let my := qmeanD (pairs.map (fun p => p.2))
  (pairs.map (fun p => (p.2 - my) ^ 2)).sum

/-- The serialized `price_production_correlation` field.  The float value
is `covSum/√(varSumFst·varSumSnd)`, carried symbolically by `corrVal`.
`nanCorr` is the NaN produced when a variance vanishes — NaN is *truthy*
in Python, so it is reported, while a correlation of exactly `0.0` is
falsy and serialized as `None` (`round(c, 3) if c else None`). -/
inductive CorrField
  | absent
  | nanCorr
  | corrVal (cov varx vary : ℚ)
deriving DecidableEq, Repr

/-- The `price_prod_correlation` field as reported: `corr` is computed only when
more than 2 joined months exist, then passed through Python truthiness. -/
def corrFieldOf (pairs : List (ℚ × ℚ)) : CorrField :=
  if 2 < pairs.length then
    if varSumFst pairs = 0 ∨ varSumSnd pairs = 0 then .nanCorr
    else if covSum pairs = 0 then .absent
    else .corrVal (covSum pairs) (varSumFst pairs) (varSumSnd pairs)
  else .absent

structure CurrentBalance where
  status : String
  message : String
  production_tons : ℚ
  avg_price_tzs : ℚ
  storage_tons : ℚ
deriving DecidableEq, Repr

structure CorrelationAnalysis where
  price_production_correlation : CorrField
  interpretation : String
deriving DecidableEq, Repr

structure HistoricalPatterns where
  surplus_periods : List (ℤ × ℕ)
  shortage_periods : List (ℤ × ℕ)
  avg_production : Option ℚ
  /-- Holds `round(std, 2)`; the exact variance under a symbolic root. -/
  production_volatility : Option SqrtQ
deriving DecidableEq, Repr

structure SupplyDemandBalance where
  current_balance : CurrentBalance
  correlation_analysis : CorrelationAnalysis
  historical_patterns : HistoricalPatterns
  generated_at : ℤ
deriving DecidableEq, Repr

/-- Model of `get_supply_demand_balance()`.  Comparisons against `mean ± std` are
decided by squaring (`gtSqrt`); NaN means/stds make every such comparison
false, exactly as in float semantics. -/
def get_supply_demand_balance (e0 : Env) : Env × SupplyDemandBalance :=
  let (e, production_df) := load_production_data e0
  let (e, price_df) := load_price_data e
  let (e, storage_df) := load_storage_data e
  let monthly_production := monthlySums production_df
  let monthly_price :=
    groupMeanByYM (fun r => ymOf r.date) (fun r => r.price_per_kg_tzs) price_df
  let monthly_storage :=
    groupMeanByYM (fun r => ymOf r.date) (fun r => r.quantity_stored_tons)
      storage_df
  let pairs := sdbMonthlyPairs production_df price_df
  let prodVals := monthly_production.map (fun p => p.2)
  let prod_mean := qmean prodVals
  let prod_var := qvariance prodVals
  let exceedsMeanPlusStd : ℚ → Bool := fun x =>
    match prod_mean, prod_var with
    | some mu, some v => gtSqrt (x - mu) v
    | _, _ => false
  let belowMeanMinusStd : ℚ → Bool := fun x =>
    match prod_mean, prod_var with
    | some mu, some v => gtSqrt (mu - x) v
    | _, _ => false
  let surplus_months :=
    (monthly_production.filter (fun p => exceedsMeanPlusStd p.2)).map
      (fun p => p.1)
  let shortage_months :=
    (monthly_production.filter (fun p => belowMeanMinusStd p.2)).map
      (fun p => p.1)
  let latest_prod := ((monthly_production.getLast?).map (fun p => p.2)).getD 0
  let latest_price := ((monthly_price.getLast?).map (fun p => p.2)).getD 0
  let latest_storage := ((monthly_storage.getLast?).map (fun p => p.2)).getD 0
  let aboveMean : Bool :=
    match prod_mean with
    | some mu => decide (mu < latest_prod)
    | none => false
  let currentStatus : String × String :=
    if aboveMean then
      ("surplus", "Production above average - favorable supply conditions")
    else if belowMeanMinusStd latest_prod then
      ("shortage", "Production below average - potential supply constraints")
    else
      ("balanced", "Production at normal levels")
  let corrField := corrFieldOf pairs
  (e,
   { current_balance :=
       { status := currentStatus.1
         message := currentStatus.2
         production_tons := roundTo DP_QUANTITY latest_prod
         avg_price_tzs := roundTo DP_PRICE latest_price
         storage_tons := roundTo DP_QUANTITY latest_storage }
     correlation_analysis :=
       { price_production_correlation := corrField
         interpretation :=
           match corrField with
           | .corrVal cov _ _ =>
             if cov < 0 then
               "Negative correlation expected (high production → low prices)"
             else "Positive correlation indicates other factors at play"
           | _ => "Positive correlation indicates other factors at play" }
     historical_patterns :=
       { surplus_periods := surplus_months
         shortage_periods := shortage_months
         avg_production := prod_mean.map (roundTo DP_QUANTITY)
         production_volatility := prod_var.map SqrtQ.mk }
     generated_at := e.now })

-- ============================================================================
-- Function 8: get_market_opportunities
-- ============================================================================

/-- Grade-A mean price per market over the trailing 7 days
(`current_prices[grade == 'A'].groupby('market')['price'].mean()`). -/
def marketPricesGradeA (now : ℤ) (prices : List PriceRow) :
    List (String × ℚ) :=
  let cutoff := now - 7
  let current_prices := prices.filter (fun r => decide (cutoff ≤ r.date))
  groupMeanBy (fun r => r.market) (fun r => r.price_per_kg_tzs)
    (current_prices.filter (fun r => r.quality_grade == "A"))

structure Arbitrage where
  buy_market : String
  buy_price_tzs : ℚ
  sell_market : String
  sell_price_tzs : ℚ
  price_gap_tzs : ℚ
  profit_margin_percent : ℚ
  recommendation : String
deriving DecidableEq, Repr

/-- The arbitrage record computed from the per-market grade-A means.
The `[]` case is unreachable: the caller only reaches this computation
behind the `len(market_prices) >= 2` guard. -/
def arbitrageOf : List (String × ℚ) → Arbitrage
  | [] =>
    { buy_market := "", buy_price_tzs := 0, sell_market := ""
      sell_price_tzs := 0, price_gap_tzs := 0, profit_margin_percent := 0
      recommendation := "" }
  | p :: ps =>
    let mx := (ps.foldl (fun b q => if b.2 < q.2 then q else b) p)
    let mn := (ps.foldl (fun b q => if q.2 < b.2 then q else b) p)
    let price_gap := mx.2 - mn.2
    let price_gap_pct := price_gap / mn.2 * 100
    { buy_market := mn.1
      buy_price_tzs := roundTo DP_PRICE mn.2
      sell_market := mx.1
      sell_price_tzs := roundTo DP_PRICE mx.2
      price_gap_tzs := roundTo DP_PRICE price_gap
      profit_margin_percent := roundTo DP_PERCENTAGE price_gap_pct
      recommendation :=
        if 15 < price_gap_pct then "Strong opportunity"
        else if 8 < price_gap_pct then "Moderate opportunity"
        else "Limited opportunity" }

structure QualityPremium where
  grade_c_price_tzs : ℚ
  grade_a_price_tzs : ℚ
  premium_percent : ℚ
  recommendation : String
deriving DecidableEq, Repr

structure TimingRecommendation where
  current_period : String
  action : String
  reason : String
  confidence : String
deriving DecidableEq, Repr

structure ForecastOpportunity where
  market : String
  current_price : ℚ
  forecast_price : ℚ
  change_percent : ℚ
  action : String
deriving DecidableEq, Repr

structure MOReport where
  arbitrage_opportunity : Arbitrage
  quality_premium_opportunity : Option QualityPremium
  timing_recommendation : TimingRecommendation
  forecast_opportunities : Option (List ForecastOpportunity)
  generated_at : ℤ
deriving DecidableEq, Repr

/-- The `get_market_opportunities` result either is the explicit
insufficient-data dict or a full report. -/
inductive MarketOpportunities
  | insufficient
  | report (r : MOReport)
deriving DecidableEq, Repr

/-- Model of `get_market_opportunities()`. -/
def get_market_opportunities (e0 : Env) : Env × MarketOpportunities :=
  let (e, price_df) := load_price_data e0
  let (e, _prod_forecasts) := load_production_forecasts e
  let (e, price_forecasts) := load_price_forecasts e
  let cutoff := e.now - 7
  let current_prices := price_df.filter (fun r => decide (cutoff ≤ r.date))
  let market_prices := marketPricesGradeA e.now price_df
  let result : MarketOpportunities :=
   if market_prices.length < 2 then .insufficient
   else
    let arbitrage := arbitrageOf market_prices
    let grade_prices :=
      groupMeanBy (fun r => r.quality_grade) (fun r => r.price_per_kg_tzs)
        current_prices
    let quality_premium : Option QualityPremium :=
      match grade_prices.lookup "A", grade_prices.lookup "C" with
      | some grade_a_price, some grade_c_price =>
        let premium_pct := (grade_a_price - grade_c_price) / grade_c_price * 100
        some { grade_c_price_tzs := roundTo DP_PRICE grade_c_price
               grade_a_price_tzs := roundTo DP_PRICE grade_a_price
               premium_percent := roundTo DP_PERCENTAGE premium_pct
               recommendation :=
                 if 20 < premium_pct then "Invest in quality improvement"
                 else "Moderate quality focus" }
      | _, _ => none
    let current_month := monthOf e.now
    let timing_recommendation : TimingRecommendation :=
      if LEAN_SEASON.contains current_month then
        { current_period := "Lean season"
          action := "SELL NOW"
          reason := "Prices typically peak during lean season (March-May)"
          confidence := "High" }
      else if MASIKA_HARVEST.contains current_month then
        { current_period := "Masika harvest"
          action := "HOLD or STORE"
          reason :=
            "Prices typically drop during harvest. Consider storage for better prices later."
          confidence := "High" }
      else if VULI_HARVEST.contains current_month then
        { current_period := "Vuli harvest"
          action := "SELL MODERATE VOLUMES"
          reason := "Moderate harvest period. Balance immediate sales with storage."
          confidence := "Medium" }
      else
        { current_period := "Normal period"
          action := "MONITOR"
          reason := "Prices stable. Watch for seasonal changes."
          confidence := "Medium" }
    let forecast_opportunities : List ForecastOpportunity :=
      match price_forecasts with
      | none => []
      | some fdf =>
        let next_month := ymOf (e.now + 30)
        let forecast_next := fdf.filter (fun r => r.month == next_month)
        (MARKETS.take 5).filterMap (fun market =>
          let market_current := qmean
            ((current_prices.filter (fun r =>
              r.market == market && r.quality_grade == "A")).map
              (fun r => r.price_per_kg_tzs))
          let market_forecast := (forecast_next.filter (fun r =>
            r.market == market && r.grade == "A")).map (fun r => r.yhat)
          match market_forecast, market_current with
          | forecast_price :: _, some mc =>
            let change_pct := (forecast_price - mc) / mc * 100
            if 5 < |change_pct| then
              some { market := market
                     current_price := roundTo DP_PRICE mc
                     forecast_price := roundTo DP_PRICE forecast_price
                     change_percent := roundTo DP_PERCENTAGE change_pct
                     action :=
                       if 5 < change_pct then "Consider storing"
                       else "Consider selling soon" }
            else none
          | _, _ => none)
    .report
      { arbitrage_opportunity := arbitrage
        quality_premium_opportunity := quality_premium
        timing_recommendation := timing_recommendation
        forecast_opportunities :=
          if 0 < forecast_opportunities.length then some forecast_opportunities
          else none
        generated_at := e.now }
  (e, result)

-- ============================================================================
-- Validators (ml/analytics/validators.py): data model
-- ============================================================================

/-- A raw date cell: `missing` is NaN/NaT, `malformed` a string
`pd.to_datetime` rejects (raising), `ok d` a parseable value.  Since dates
are already semantic here, the in-place `df['date'] = pd.to_datetime(...)`
coercion is the identity on this representation. -/
inductive DCell
  | missing
  | malformed
  | ok (d : ℤ)
deriving DecidableEq, Repr

def DCell.okVal : DCell → Option ℤ
  | .ok d => some d
  | _ => none

/-- Minimum of the non-missing dates (pandas `min` skips NaT). -/
def zminimum (xs : List ℤ) : Option ℤ :=
  match xs with
  | [] => none
  | a :: as => some (as.foldl min a)

def zmaximum (xs : List ℤ) : Option ℤ :=
  match xs with
  | [] => none
  | a :: as => some (as.foldl max a)

/-- Pandas linear-interpolation quantile over the non-null values;
`none` (NaN) on an empty series. -/
def quantileQ (p : ℚ) (xs : List ℚ) : Option ℚ :=
  match sortBy (fun a b => decide (a ≤ b)) xs with
  | [] => none
  | s@(_ :: _) =>
    let n := s.length
    let h : ℚ := ((n : ℚ) - 1) * p
    let i := (⌊h⌋).toNat
    let lo := s.getD i 0
    let hi := s.getD (min (i + 1) (n - 1)) 0
    some (lo + (h - (⌊h⌋ : ℚ)) * (hi - lo))

/-- Validator messages.  The source builds f-strings; the model keeps each
message as a tagged constructor carrying the interpolated values, which is
the same information without float formatting. -/
inductive VMsg
  | emptyData (dataset : String)
  | missingColumns (cols : List String)
  | invalidDateFormat
  | futureDates (count : ℕ)
  | invalidRegions (vals : List (Option String))
  | negativeQuantities (count : ℕ)
  | zeroQuantities (count : ℕ)
  | outliers (count : ℕ)
  | missingValues (col : String) (pct : ℚ)
  | invalidMarkets (vals : List (Option String))
  | invalidGrades (vals : List (Option String))
  | nonPositivePrices (count : ℕ)
  | lowPrices (count : ℕ) (threshold : ℚ)
  | highPrices (count : ℕ) (threshold : ℚ)
  | gradeABInversion (market : Option String)
  | gradeBCInversion (market : Option String)
  | negativeStorage (count : ℕ)
  | nonPositiveCapacity (count : ℕ)
  | exceedCapacity (count : ℕ)
  | criticalHighUtil (count : ℕ)
  | negativeForecasts (count : ℕ)
  | invalidCI (count : ℕ)
  | outsideCI (count : ℕ)
  | totalRecords (n : ℕ)
  | dateRange (lo hi : Option ℤ)
  | regionsCount (n : ℕ)
  | totalProduction (q : ℚ)
  | marketsCount (n : ℕ)
  | avgPrice (p : Option ℚ)
  | activeWarehouses (n : ℕ)
  | totalStored (q : ℚ)
  | totalCapacity (q : ℚ)
  | avgUtilization (u : ExtQ)
  | totalForecasts (n : ℕ)
  | forecastType (t : String)
  | gradesCount (n : ℕ)
deriving DecidableEq, Repr

/-- Model of `ValidationResult`: three accumulated message lists. -/
structure ValidationResult where
  errors : List VMsg
  warnings : List VMsg
  info : List VMsg
deriving DecidableEq, Repr

/-- Model of `is_valid`: no errors accumulated. -/
def ValidationResult.is_valid (r : ValidationResult) : Bool :=
  r.errors.length == 0

/-- The `to_dict` dict's `valid` entry equals `is_valid()`; the lists are carried
verbatim, so `ValidationResult` doubles as the dict model. -/
def ValidationResult.valid (r : ValidationResult) : Bool :=
  r.is_valid

/-- The per-column missing-value audit (§ step 8 of each validator):
`>20%` missing is an error, `>5%` a warning, else nothing; the reported
percentage is formatted to one decimal place. -/
def missingAudit (counts : List (String × ℕ)) (total : ℕ) :
    List VMsg × List VMsg :=
  counts.foldr (fun p acc =>
    if 0 < p.2 then
      let pct : ℚ := (p.2 : ℚ) / (total : ℚ) * 100
      if 20 < pct then (VMsg.missingValues p.1 (roundTo 1 pct) :: acc.1, acc.2)
      else if 5 < pct then
        (acc.1, VMsg.missingValues p.1 (roundTo 1 pct) :: acc.2)
      else acc
    else acc) ([], [])

-- ============================================================================
-- validate_production_data
-- ============================================================================

/-- A production row as the validator sees it (`none` cells are NaN). -/
structure VProdRow where
  date : DCell
  region : Option String
  quantity_tons : Option ℚ
deriving DecidableEq, Repr

/-- A production table: its column list plus its rows.  Cells exist for
the three contractual columns; `cols` records which columns the file
actually carries (the model does not represent data of further columns,
whose missing-counts are 0). -/
structure VProdTable where
  cols : List String
  rows : List VProdRow
deriving DecidableEq, Repr

def requiredProdCols : List String := ["date", "region", "quantity_tons"]

/-- Model of `df[col].isnull().sum()` for the production schema. -/
def prodMissingCount (c : String) (rows : List VProdRow) : ℕ :=
  if c = "date" then rows.countP (fun r => r.date == .missing)
  else if c = "region" then rows.countP (fun r => r.region.isNone)
  else if c = "quantity_tons" then rows.countP (fun r => r.quantity_tons.isNone)
  else 0

/-- The fraction of missing values of one column, as a percentage of the
total row count. -/
def prodMissingPct (c : String) (df : VProdTable) : ℚ :=
  (prodMissingCount c df.rows : ℚ) / (df.rows.length : ℚ) * 100

/-- The missing-value audit messages of the production validator. -/
def prodAuditPair (df : VProdTable) : List VMsg × List VMsg :=
  missingAudit (df.cols.map (fun c => (c, prodMissingCount c df.rows)))
    df.rows.length

/-- Whether the production validator reaches its main path (past the
emptiness, required-column and date-parse early returns). -/
def prodMainPath (df : VProdTable) : Bool :=
  (df.rows.length != 0) &&
  ((requiredProdCols.filter (fun c => !df.cols.contains c)).length == 0) &&
  !(df.rows.any (fun r => r.date == .malformed))

/-- Model of `validate_production_data(df)`.  Returns the (date-coerced) dataframe
together with the `ValidationResult`; the early returns leave the table
untouched. -/
def validate_production_data (now : ℤ) (df : VProdTable) :
    VProdTable × ValidationResult :=
  if df.rows.length = 0 then
    (df, { errors := [.emptyData "production"], warnings := [], info := [] })
  else
    let missing_columns := requiredProdCols.filter (fun c => !df.cols.contains c)
    if 0 < missing_columns.length then
      (df, { errors := [.missingColumns missing_columns], warnings := [],
             info := [] })
    else if df.rows.any (fun r => r.date == .malformed) then
      (df, { errors := [.invalidDateFormat], warnings := [], info := [] })
    else
      let rows := df.rows
      let n := rows.length
      let future_count := rows.countP (fun r =>
        match r.date with | .ok d => decide (now < d) | _ => false)
      let invalid_regions := rows.filter (fun r =>
        !(match r.region with
          | some s => REGIONS.contains s
          | none => false))
      let negative_count := rows.countP (fun r =>
        match r.quantity_tons with | some q => decide (q < 0) | none => false)
      let zero_count := rows.countP (fun r =>
        match r.quantity_tons with | some q => q == 0 | none => false)
      let vals := rows.filterMap (fun r => r.quantity_tons)
      let outlier_count :=
        match quantileQ (1/4) vals, quantileQ (3/4) vals with
        | some q1, some q3 =>
          let iqr := q3 - q1
          let lower_bound := q1 - 3 * iqr
          let upper_bound := q3 + 3 * iqr
          rows.countP (fun r =>
            match r.quantity_tons with
            | some q => decide (q < lower_bound) || decide (upper_bound < q)
            | none => false)
        | _, _ => 0
      let audit := prodAuditPair df
      let okDates := rows.filterMap (fun r => r.date.okVal)
      (df,
       { errors :=
           (if 0 < invalid_regions.length then
             [.invalidRegions
               (dedupKeepFirst (invalid_regions.map (fun r => r.region)))]
            else []) ++
           (if 0 < negative_count then [.negativeQuantities negative_count]
            else []) ++
           audit.1
         warnings :=
           (if 0 < future_count then [.futureDates future_count] else []) ++
           (if 0 < zero_count then [.zeroQuantities zero_count] else []) ++
           (if 0 < outlier_count then [.outliers outlier_count] else []) ++
           audit.2
         info :=
           [.totalRecords n,
            .dateRange (zminimum okDates) (zmaximum okDates),
            .regionsCount
              (dedupKeepFirst (rows.filterMap (fun r => r.region))).length,
            .totalProduction (rows.filterMap (fun r => r.quantity_tons)).sum] })

-- ============================================================================
-- validate_price_data
-- ============================================================================

structure VPriceRow where
  date : DCell
  market : Option String
  price_per_kg_tzs : Option ℚ
  quality_grade : Option String
deriving DecidableEq, Repr

structure VPriceTable where
  cols : List String
  rows : List VPriceRow
deriving DecidableEq, Repr

def requiredPriceCols : List String :=
  ["date", "market", "price_per_kg_tzs", "quality_grade"]

def priceMissingCount (c : String) (rows : List VPriceRow) : ℕ :=
  if c = "date" then rows.countP (fun r => r.date == .missing)
  else if c = "market" then rows.countP (fun r => r.market.isNone)
  else if c = "price_per_kg_tzs" then
    rows.countP (fun r => r.price_per_kg_tzs.isNone)
  else if c = "quality_grade" then rows.countP (fun r => r.quality_grade.isNone)
  else 0

/-- Model of `groupby('quality_grade')['price'].mean()[g]` within one market group:
outer `none` = grade not in the index, inner `none` = NaN mean (all prices
of that grade missing). -/
def gradeMeanIn (group : List VPriceRow) (g : String) : Option (Option ℚ) :=
  if group.any (fun r => r.quality_grade == some g) then
    some (qmean ((group.filter (fun r => r.quality_grade == some g)).filterMap
      (fun r => r.price_per_kg_tzs)))
  else none

/-- Decides `a < b` on two such lookups, with NaN/absence comparing false. -/
def gmLt (a b : Option (Option ℚ)) : Bool :=
  match a, b with
  | some (some x), some (some y) => decide (x < y)
  | _, _ => false

/-- The grade-hierarchy warnings of one market group (A < B, then B < C). -/
def gradeHierarchyWarnings (mk : Option String) (rows : List VPriceRow) :
    List VMsg :=
  let group := rows.filter (fun r =>
    match mk, r.market with
    | some a, some b => a == b
    | _, _ => false)
  (if gmLt (gradeMeanIn group "A") (gradeMeanIn group "B") then
    [VMsg.gradeABInversion mk] else []) ++
  (if gmLt (gradeMeanIn group "B") (gradeMeanIn group "C") then
    [VMsg.gradeBCInversion mk] else [])

/-- Model of `validate_price_data(df)`. -/
def validate_price_data (now : ℤ) (df : VPriceTable) :
    VPriceTable × ValidationResult :=
  if df.rows.length = 0 then
    (df, { errors := [.emptyData "price"], warnings := [], info := [] })
  else
    let missing_columns := requiredPriceCols.filter (fun c => !df.cols.contains c)
    if 0 < missing_columns.length then
      (df, { errors := [.missingColumns missing_columns], warnings := [],
             info := [] })
    else if df.rows.any (fun r => r.date == .malformed) then
      (df, { errors := [.invalidDateFormat], warnings := [], info := [] })
    else
      let rows := df.rows
      let n := rows.length
      let future_count := rows.countP (fun r =>
        match r.date with | .ok d => decide (now < d) | _ => false)
      let invalid_markets := rows.filter (fun r =>
        !(match r.market with
          | some s => MARKETS.contains s
          | none => false))
      let invalid_grades := rows.filter (fun r =>
        !(match r.quality_grade with
          | some s => QUALITY_GRADES.contains s
          | none => false))
      let nonpos_count := rows.countP (fun r =>
        match r.price_per_kg_tzs with
        | some p => decide (p ≤ 0)
        | none => false)
      let low_count := rows.countP (fun r =>
        match r.price_per_kg_tzs with
        | some p => decide (p < PRICE_MIN_NORMAL)
        | none => false)
      let high_count := rows.countP (fun r =>
        match r.price_per_kg_tzs with
        | some p => decide (PRICE_MAX_NORMAL < p)
        | none => false)
      let hierarchy :=
        ((dedupKeepFirst (rows.map (fun r => r.market))).map
          (fun mk => gradeHierarchyWarnings mk rows)).flatten
      let audit := missingAudit
        (df.cols.map (fun c => (c, priceMissingCount c rows))) n
      let okDates := rows.filterMap (fun r => r.date.okVal)
      (df,
       { errors :=
           (if 0 < invalid_markets.length then
             [.invalidMarkets
               (dedupKeepFirst (invalid_markets.map (fun r => r.market)))]
            else []) ++
           (if 0 < invalid_grades.length then
             [.invalidGrades
               (dedupKeepFirst (invalid_grades.map (fun r => r.quality_grade)))]
            else []) ++
           (if 0 < nonpos_count then [.nonPositivePrices nonpos_count]
            else []) ++
           audit.1
         warnings :=
           (if 0 < future_count then [.futureDates future_count] else []) ++
           (if 0 < low_count then [.lowPrices low_count PRICE_MIN_NORMAL]
            else []) ++
           (if 0 < high_count then [.highPrices high_count PRICE_MAX_NORMAL]
            else []) ++
           hierarchy ++
           audit.2
         info :=
           [.totalRecords n,
            .dateRange (zminimum okDates) (zmaximum okDates),
            .marketsCount
              (dedupKeepFirst (rows.filterMap (fun r => r.market))).length,
            .avgPrice (qmean (rows.filterMap (fun r => r.price_per_kg_tzs)))] })

-- ============================================================================
-- validate_storage_data
-- ============================================================================

/-- A storage row as the validator sees it.  The `utilization` field backs
the column the validator itself appends: before that assignment the column
is not listed in `cols` and the field holds the placeholder `.nan`. -/
structure VStorRow where
  date : DCell
  warehouse_id : Option String
  quantity_stored_tons : Option ℚ
  capacity_tons : Option ℚ
  utilization : ExtQ
deriving DecidableEq, Repr

structure VStorTable where
  cols : List String
  rows : List VStorRow
deriving DecidableEq, Repr

def requiredStorCols : List String :=
  ["date", "warehouse_id", "quantity_stored_tons", "capacity_tons"]

/-- Computes `stored / capacity * 100` on possibly-missing cells with float
semantics (NaN propagates; division by a zero capacity gives `±inf`). -/
def divCellPct (a b : Option ℚ) : ExtQ :=
  match a, b with
  | some x, some y => qdivPct x y
  | _, _ => .nan

/-- Mean of a float column that may hold NaN (skipped) and infinities. -/
def extqMean (xs : List ExtQ) : ExtQ :=
  let fins := xs.filterMap (fun x => match x with | .fin q => some q | _ => none)
  if xs.contains .pinf && xs.contains .ninf then .nan
  else if xs.contains .pinf then .pinf
  else if xs.contains .ninf then .ninf
  else match qmean fins with
       | some m => .fin m
       | none => .nan

def storMissingCount (c : String) (rows : List VStorRow) : ℕ :=
  if c = "date" then rows.countP (fun r => r.date == .missing)
  else if c = "warehouse_id" then rows.countP (fun r => r.warehouse_id.isNone)
  else if c = "quantity_stored_tons" then
    rows.countP (fun r => r.quantity_stored_tons.isNone)
  else if c = "capacity_tons" then rows.countP (fun r => r.capacity_tons.isNone)
  else if c = "utilization" then rows.countP (fun r => r.utilization == .nan)
  else 0

/-- Count of rows with a negative stored quantity (NaN compares false). -/
def storNegCount (rows : List VStorRow) : ℕ :=
  rows.countP (fun r =>
    match r.quantity_stored_tons with
    | some q => decide (q < 0)
    | none => false)

/-- Count of rows with a non-positive capacity. -/
def storNonposCapCount (rows : List VStorRow) : ℕ :=
  rows.countP (fun r =>
    match r.capacity_tons with
    | some c => decide (c ≤ 0)
    | none => false)

/-- Count of rows whose stored quantity exceeds the capacity. -/
def storOverCount (rows : List VStorRow) : ℕ :=
  rows.countP (fun r =>
    match r.quantity_stored_tons, r.capacity_tons with
    | some s, some c => decide (c < s)
    | _, _ => false)

/-- The assignment `df['utilization'] = stored / capacity * 100` applied to each row. -/
def storMutatedRows (rows : List VStorRow) : List VStorRow :=
  rows.map (fun r =>
    { r with utilization := divCellPct r.quantity_stored_tons r.capacity_tons })

/-- The column list after the utilization assignment (an existing column
would be overwritten in place, a new one is appended). -/
def storMutatedCols (cols : List String) : List String :=
  if cols.contains "utilization" then cols else cols ++ ["utilization"]

/-- The missing-value audit messages of the storage validator (run after
the utilization column has been added). -/
def storAuditPair (df : VStorTable) : List VMsg × List VMsg :=
  missingAudit
    ((storMutatedCols df.cols).map
      (fun c => (c, storMissingCount c (storMutatedRows df.rows))))
    df.rows.length

/-- Whether the storage validator reaches its main path (past the
emptiness, required-column and date-parse early returns). -/
def storMainPath (df : VStorTable) : Bool :=
  (df.rows.length != 0) &&
  ((requiredStorCols.filter (fun c => !df.cols.contains c)).length == 0) &&
  !(df.rows.any (fun r => r.date == .malformed))

/-- Model of `validate_storage_data(df)`.  The returned table is the caller's
dataframe *after* the call: on the main path the validator has appended a
`utilization` column to it (`df['utilization'] = ...`), so the output
table differs from the input. -/
def validate_storage_data (df : VStorTable) : VStorTable × ValidationResult :=
  if df.rows.length = 0 then
    (df, { errors := [.emptyData "storage"], warnings := [], info := [] })
  else
    let missing_columns := requiredStorCols.filter (fun c => !df.cols.contains c)
    if 0 < missing_columns.length then
      (df, { errors := [.missingColumns missing_columns], warnings := [],
             info := [] })
    else if df.rows.any (fun r => r.date == .malformed) then
      (df, { errors := [.invalidDateFormat], warnings := [], info := [] })
    else
      let rows := df.rows
      let n := rows.length
      let negative_count := storNegCount rows
      let nonpos_cap_count := storNonposCapCount rows
      let over_count := storOverCount rows
      let rows2 := storMutatedRows rows
      let cols2 := storMutatedCols df.cols
      let critical_count := rows2.countP (fun r => r.utilization.gtQ 95)
      let audit := storAuditPair df
      let okDates := rows2.filterMap (fun r => r.date.okVal)
      ({ cols := cols2, rows := rows2 },
       { errors :=
           (if 0 < negative_count then [.negativeStorage negative_count]
            else []) ++
           (if 0 < nonpos_cap_count then
             [.nonPositiveCapacity nonpos_cap_count] else []) ++
           audit.1
         warnings :=
           (if 0 < over_count then [.exceedCapacity over_count] else []) ++
           (if 0 < critical_count then [.criticalHighUtil critical_count]
            else []) ++
           audit.2
         info :=
           (if cols2.contains "warehouse_id" then
             [VMsg.activeWarehouses
               (dedupKeepFirst (rows2.filterMap
                 (fun r => r.warehouse_id))).length]
            else []) ++
           [.totalRecords n,
            .dateRange (zminimum okDates) (zmaximum okDates),
            .totalStored
              (rows2.filterMap (fun r => r.quantity_stored_tons)).sum,
            .totalCapacity (rows2.filterMap (fun r => r.capacity_tons)).sum,
            .avgUtilization (extqMean (rows2.map (fun r => r.utilization)))] })

-- ============================================================================
-- validate_forecast_data
-- ============================================================================

structure VForeRow where
  yhat : Option ℚ
  yhat_lower : Option ℚ
  yhat_upper : Option ℚ
  region : Option String
  market : Option String
  grade : Option String
deriving DecidableEq, Repr

structure VForeTable where
  cols : List String
  rows : List VForeRow
deriving DecidableEq, Repr

/-- Model of `validate_forecast_data(df, forecast_type)` (no mutation: this
validator neither parses dates in place nor adds columns). -/
def validate_forecast_data (df : VForeTable) (forecast_type : String) :
    VForeTable × ValidationResult :=
  if df.rows.length = 0 then
    (df, { errors := [.emptyData "forecast"], warnings := [], info := [] })
  else
    let required_columns :=
      if forecast_type = "production" then
        ["ds", "yhat", "yhat_lower", "yhat_upper", "region"]
      else ["month", "yhat", "yhat_lower", "yhat_upper", "market", "grade"]
    let missing_columns := required_columns.filter (fun c => !df.cols.contains c)
    if 0 < missing_columns.length then
      (df, { errors := [.missingColumns missing_columns], warnings := [],
             info := [] })
    else
      let rows := df.rows
      let negative_count := rows.countP (fun r =>
        match r.yhat with | some y => decide (y < 0) | none => false)
      let invalid_ci_count := rows.countP (fun r =>
        match r.yhat_lower, r.yhat_upper with
        | some lo, some hi => decide (hi < lo)
        | _, _ => false)
      let outside_ci_count := rows.countP (fun r =>
        (match r.yhat, r.yhat_lower with
         | some y, some lo => decide (y < lo)
         | _, _ => false) ||
        (match r.yhat, r.yhat_upper with
         | some y, some hi => decide (hi < y)
         | _, _ => false))
      (df,
       { errors :=
           (if 0 < negative_count then [.negativeForecasts negative_count]
            else []) ++
           (if 0 < invalid_ci_count then [.invalidCI invalid_ci_count]
            else [])
         warnings :=
           (if 0 < outside_ci_count then [.outsideCI outside_ci_count]
            else [])
         info :=
           [.totalForecasts rows.length, .forecastType forecast_type] ++
           (if forecast_type = "production" then
             [VMsg.regionsCount
               (dedupKeepFirst (rows.filterMap (fun r => r.region))).length]
            else
             [VMsg.marketsCount
               (dedupKeepFirst (rows.filterMap (fun r => r.market))).length,
              VMsg.gradesCount
               (dedupKeepFirst (rows.filterMap (fun r => r.grade))).length]) })

-- ============================================================================
-- Spec-side comparison definitions (claim wording, for refutations)
-- ============================================================================

/-- The storage totals as §4.3 of the spec words them for the national
summary: the latest record per warehouse *restricted to the period window*
(`date ≥ now − period_days`).  This is the claimed behaviour, written for
comparison with `get_national_summary`, which takes the latest records
over the whole table. -/
def spec_windowedLatestStorage (now days : ℤ) (rows : List StorRow) :
    List StorRow :=
  latestStorage (rows.filter (fun r => decide (now - days ≤ r.date)))

/-- Claimed window-restricted stored total. -/
def spec_windowedTotalStored (now days : ℤ) (rows : List StorRow) : ℚ :=
  ((spec_windowedLatestStorage now days rows).map
    (fun r => r.quantity_stored_tons)).sum

/-- A storage row without its utilization field (for stating that the
storage validator changes nothing else about the caller's table). -/
def VStorRow.dropUtil (r : VStorRow) :
    DCell × Option String × Option ℚ × Option ℚ :=
  (r.date, r.warehouse_id, r.quantity_stored_tons, r.capacity_tons)

-- ============================================================================
-- Concrete fixtures for the claims
-- ============================================================================

/-- C1 fixture: forecast summary file present with one row, call unscoped. -/
def env1 : Env :=
  { now := 100
    production := [{ date := 95, region := "Mbeya", quantity_tons := 10 }]
    prices := []
    storage := []
    prodForecast :=
      some [{ region := "Mbeya", historical_avg := 80, forecast_avg := 100,
              growth_pct := 25 }]
    priceForecast := none }

/-- C2 fixture: a fixed set of backing tables. -/
def env2 : Env :=
  { now := 0
    production := [{ date := -3, region := "Mbeya", quantity_tons := 7 }]
    prices := []
    storage := [{ date := -3, warehouse_id := "W1", region := "Mbeya",
                  quantity_stored_tons := 10, capacity_tons := 100 }]
    prodForecast := none
    priceForecast := none }

/-- C3 / C5 storage fixture: well-formed except one row stores more than
its capacity. -/
def dfStor1 : VStorTable :=
  { cols := ["date", "warehouse_id", "quantity_stored_tons", "capacity_tons"]
    rows := [{ date := .ok 0, warehouse_id := some "W1",
               quantity_stored_tons := some 150, capacity_tons := some 100,
               utilization := .nan },
             { date := .ok 1, warehouse_id := some "W2",
               quantity_stored_tons := some 50, capacity_tons := some 100,
               utilization := .nan }] }

/-- A second storage fixture for the C5 witness (identical shape). -/
def dfStor2 : VStorTable :=
  { cols := ["date", "warehouse_id", "quantity_stored_tons", "capacity_tons"]
    rows := [{ date := .ok 5, warehouse_id := some "WA",
               quantity_stored_tons := some 120, capacity_tons := some 100,
               utilization := .nan }] }

/-- C3 auxiliary fixtures for the pure validators. -/
def dfProd0 : VProdTable :=
  { cols := ["date", "region", "quantity_tons"]
    rows := [{ date := .ok 0, region := some "Mbeya",
               quantity_tons := some 5 }] }

def dfPrice0 : VPriceTable :=
  { cols := ["date", "market", "price_per_kg_tzs", "quality_grade"]
    rows := [{ date := .ok 0, market := some "Kariakoo",
               price_per_kg_tzs := some 1000, quality_grade := some "A" }] }

def dfFore0 : VForeTable :=
  { cols := ["ds", "yhat", "yhat_lower", "yhat_upper", "region"]
    rows := [{ yhat := some 10, yhat_lower := some 8, yhat_upper := some 12,
               region := some "Mbeya", market := none, grade := none }] }

/-- C4 fixture: one warehouse whose only record predates the 30-day
window. -/
def env4 : Env :=
  { now := 100
    production := []
    prices := []
    storage := [{ date := 0, warehouse_id := "W1", region := "Mbeya",
                  quantity_stored_tons := 50, capacity_tons := 100 }]
    prodForecast := none
    priceForecast := none }

/-- C6 counterexample fixture: 20 rows, exactly one missing
`quantity_tons` cell — exactly 5% missing. -/
def dfProd6 : VProdTable :=
  { cols := ["date", "region", "quantity_tons"]
    rows := (List.range 20).map (fun i =>
      { date := .ok (i : ℤ), region := some "Mbeya",
        quantity_tons := if i = 0 then none else some 10 }) }

/-- C6 witness fixture: 10 rows; `region` missing in 3 rows (30% → error)
and `quantity_tons` missing in 1 row (10% → warning). -/
def dfProd6w : VProdTable :=
  { cols := ["date", "region", "quantity_tons"]
    rows := (List.range 10).map (fun i =>
      { date := .ok (i : ℤ)
        region := if i < 3 then none else some "Mbeya"
        quantity_tons := if i = 9 then none else some 10 }) }

/-- C7 fixture: the spec's three-warehouse scenario
(stored, capacity) = (95,100), (5,100), (60,100). -/
def env7 : Env :=
  { now := 100
    production := []
    prices := []
    storage :=
      [{ date := 5, warehouse_id := "W1", region := "Mbeya",
         quantity_stored_tons := 95, capacity_tons := 100 },
       { date := 5, warehouse_id := "W2", region := "Mbeya",
         quantity_stored_tons := 5, capacity_tons := 100 },
       { date := 5, warehouse_id := "W3", region := "Mbeya",
         quantity_stored_tons := 60, capacity_tons := 100 }]
    prodForecast := none
    priceForecast := none }

/-- C8 fixture (a): exactly two markets with grade-A data in the trailing
7 days, mean prices 1000 and 1200. -/
def env8a : Env :=
  { now := 100
    production := []
    prices := [{ date := 96, market := "Market1", region := "R",
                 quality_grade := "A", price_per_kg_tzs := 1000 },
               { date := 97, market := "Market2", region := "R",
                 quality_grade := "A", price_per_kg_tzs := 1200 }]
    storage := []
    prodForecast := none
    priceForecast := none }

/-- C8 fixture (b): a single market with grade-A data. -/
def env8b : Env :=
  { now := 100
    production := []
    prices := [{ date := 96, market := "Market1", region := "R",
                 quality_grade := "A", price_per_kg_tzs := 1000 }]
    storage := []
    prodForecast := none
    priceForecast := none }

/-- C9 fixture: three months with both observations and a Pearson
correlation of exactly zero (production 1,2,3 against prices 1,2,1). -/
def env9 : Env :=
  { now := 100
    production := [{ date := 0, region := "Mbeya", quantity_tons := 1 },
                   { date := 31, region := "Mbeya", quantity_tons := 2 },
                   { date := 59, region := "Mbeya", quantity_tons := 3 }]
    prices := [{ date := 0, market := "Kariakoo", region := "R",
                 quality_grade := "A", price_per_kg_tzs := 1 },
               { date := 31, market := "Kariakoo", region := "R",
                 quality_grade := "A", price_per_kg_tzs := 2 },
               { date := 59, market := "Kariakoo", region := "R",
                 quality_grade := "A", price_per_kg_tzs := 1 }]
    storage := []
    prodForecast := none
    priceForecast := none }

/-- C10 fixture: storage data for warehouses other than the queried one. -/
def env10 : Env :=
  { now := 100
    production := []
    prices := []
    storage := [{ date := 5, warehouse_id := "W1", region := "Mbeya",
                  quantity_stored_tons := 40, capacity_tons := 100 }]
    prodForecast := none
    priceForecast := none }

-- ============================================================================
-- Helper lemmas
-- ============================================================================

theorem mem_insertSorted {le : α → α → Bool} {x a : α} {l : List α} :
    x ∈ insertSorted le a l ↔ x = a ∨ x ∈ l := by
  induction l with
  | nil => simp [insertSorted]
  | cons b bs ih =>
    simp only [insertSorted]
    split
    · simp
    · simp [ih]
      tauto

theorem mem_sortBy {le : α → α → Bool} {x : α} {l : List α} :
    x ∈ sortBy le l ↔ x ∈ l := by
  induction l with
  | nil => simp [sortBy]
  | cons a as ih =>
    show x ∈ insertSorted le a (sortBy le as) ↔ _
    rw [mem_insertSorted]
    simp [ih]

/-- Every latest-per-warehouse record is one of the original records. -/
theorem mem_of_mem_latestStorage {r : StorRow} {rows : List StorRow}
    (h : r ∈ latestStorage rows) : r ∈ rows := by
  unfold latestStorage at h
  rcases List.mem_filterMap.mp h with ⟨w, _, hlast⟩
  unfold lastForWarehouse at hlast
  rcases List.mem_getLast?_eq_getLast hlast with ⟨hne, heq⟩
  have hmem := List.mem_of_mem_filter (heq ▸ List.getLast_mem hne)
  exact mem_sortBy.mp hmem

theorem missingAudit_cons (p : String × ℕ) (rest : List (String × ℕ))
    (total : ℕ) :
    missingAudit (p :: rest) total =
      if 0 < p.2 then
        if 20 < (p.2 : ℚ) / (total : ℚ) * 100 then
          (VMsg.missingValues p.1 (roundTo 1 ((p.2 : ℚ) / (total : ℚ) * 100))
             :: (missingAudit rest total).1,
           (missingAudit rest total).2)
        else if 5 < (p.2 : ℚ) / (total : ℚ) * 100 then
          ((missingAudit rest total).1,
           VMsg.missingValues p.1 (roundTo 1 ((p.2 : ℚ) / (total : ℚ) * 100))
             :: (missingAudit rest total).2)
        else missingAudit rest total
      else missingAudit rest total := rfl

theorem mem_missingAudit_fst {counts : List (String × ℕ)} {total : ℕ}
    {v : VMsg} :
    v ∈ (missingAudit counts total).1 ↔
      ∃ p ∈ counts, 0 < p.2 ∧ 20 < (p.2 : ℚ) / (total : ℚ) * 100 ∧
        v = .missingValues p.1 (roundTo 1 ((p.2 : ℚ) / (total : ℚ) * 100)) := by
  induction counts with
  | nil => simp [missingAudit]
  | cons p rest ih =>
    rw [missingAudit_cons]
    by_cases hp : 0 < p.2
    · rw [if_pos hp]
      by_cases h20 : 20 < (p.2 : ℚ) / (total : ℚ) * 100
      · rw [if_pos h20]
        simp only [List.mem_cons, ih]
        aesop
      · rw [if_neg h20]
        by_cases h5 : 5 < (p.2 : ℚ) / (total : ℚ) * 100
        · rw [if_pos h5]
          simp only [List.mem_cons, ih]
          aesop
        · rw [if_neg h5]
          simp only [List.mem_cons, ih]
          aesop
    · rw [if_neg hp]
      simp only [List.mem_cons, ih]
      aesop

theorem mem_missingAudit_snd {counts : List (String × ℕ)} {total : ℕ}
    {v : VMsg} :
    v ∈ (missingAudit counts total).2 ↔
      ∃ p ∈ counts, 0 < p.2 ∧ ¬(20 < (p.2 : ℚ) / (total : ℚ) * 100) ∧
        5 < (p.2 : ℚ) / (total : ℚ) * 100 ∧
        v = .missingValues p.1 (roundTo 1 ((p.2 : ℚ) / (total : ℚ) * 100)) := by
  induction counts with
  | nil => simp [missingAudit]
  | cons p rest ih =>
    rw [missingAudit_cons]
    by_cases hp : 0 < p.2
    · rw [if_pos hp]
      by_cases h20 : 20 < (p.2 : ℚ) / (total : ℚ) * 100
      · rw [if_pos h20]
        simp only [List.mem_cons, ih]
        aesop
      · rw [if_neg h20]
        by_cases h5 : 5 < (p.2 : ℚ) / (total : ℚ) * 100
        · rw [if_pos h5]
          simp only [List.mem_cons, ih]
          aesop
        · rw [if_neg h5]
          simp only [List.mem_cons, ih]
          aesop
    · rw [if_neg hp]
      simp only [List.mem_cons, ih]
      aesop

-- ---- C5 prototype ----
theorem validate_storage_data_main (df : VStorTable)
    (h1 : ¬df.rows.length = 0)
    (h2 : (requiredStorCols.filter (fun c => !df.cols.contains c)).length = 0)
    (h3 : (df.rows.any (fun r => r.date == .malformed)) = false) :
    (validate_storage_data df).2 =
      { errors :=
          (if 0 < storNegCount df.rows then
            [.negativeStorage (storNegCount df.rows)] else []) ++
          (if 0 < storNonposCapCount df.rows then
            [.nonPositiveCapacity (storNonposCapCount df.rows)] else []) ++
          (storAuditPair df).1
        warnings :=
          (if 0 < storOverCount df.rows then
            [.exceedCapacity (storOverCount df.rows)] else []) ++
          (if 0 < (storMutatedRows df.rows).countP
              (fun r => r.utilization.gtQ 95) then
            [.criticalHighUtil ((storMutatedRows df.rows).countP
              (fun r => r.utilization.gtQ 95))] else []) ++
          (storAuditPair df).2
        info :=
          (if (storMutatedCols df.cols).contains "warehouse_id" then
            [VMsg.activeWarehouses
              (dedupKeepFirst ((storMutatedRows df.rows).filterMap
                (fun r => r.warehouse_id))).length]
           else []) ++
          [.totalRecords df.rows.length,
           .dateRange
             (zminimum ((storMutatedRows df.rows).filterMap
               (fun r => r.date.okVal)))
             (zmaximum ((storMutatedRows df.rows).filterMap
               (fun r => r.date.okVal))),
           .totalStored
             ((storMutatedRows df.rows).filterMap
               (fun r => r.quantity_stored_tons)).sum,
           .totalCapacity
             ((storMutatedRows df.rows).filterMap
               (fun r => r.capacity_tons)).sum,
           .avgUtilization (extqMean ((storMutatedRows df.rows).map
             (fun r => r.utilization)))] } := by
  simp only [validate_storage_data, h1, h2, h3]
  norm_num


/-- The error list of the production validator on its main path, and the
shape of its warning list: some prefix free of missing-value messages
followed by the audit warnings. -/
theorem validate_production_data_lists (now : ℤ) (df : VProdTable)
    (h1 : ¬df.rows.length = 0)
    (h2 : (requiredProdCols.filter (fun c => !df.cols.contains c)).length = 0)
    (h3 : (df.rows.any (fun r => r.date == .malformed)) = false) :
    (validate_production_data now df).2.errors =
      (if 0 < (df.rows.filter (fun r =>
          !(match r.region with
            | some s => REGIONS.contains s
            | none => false))).length then
        [.invalidRegions (dedupKeepFirst ((df.rows.filter (fun r =>
          !(match r.region with
            | some s => REGIONS.contains s
            | none => false))).map (fun r => r.region)))]
       else []) ++
      (if 0 < df.rows.countP (fun r =>
          match r.quantity_tons with
          | some q => decide (q < 0)
          | none => false) then
        [.negativeQuantities (df.rows.countP (fun r =>
          match r.quantity_tons with
          | some q => decide (q < 0)
          | none => false))]
       else []) ++
      (prodAuditPair df).1 ∧
    ∃ pre : List VMsg,
      (validate_production_data now df).2.warnings =
        pre ++ (prodAuditPair df).2 ∧
      ∀ v ∈ pre, ∀ col q, v ≠ VMsg.missingValues col q := by
  constructor
  · simp only [validate_production_data, h1, h2, h3]
    norm_num
  · refine ⟨(if 0 < df.rows.countP (fun r =>
        match r.date with
        | .ok d => decide (now < d)
        | _ => false) then
        [.futureDates (df.rows.countP (fun r =>
          match r.date with
          | .ok d => decide (now < d)
          | _ => false))] else []) ++
      (if 0 < df.rows.countP (fun r =>
          match r.quantity_tons with
          | some q => q == 0
          | none => false) then
        [.zeroQuantities (df.rows.countP (fun r =>
          match r.quantity_tons with
          | some q => q == 0
          | none => false))] else []) ++
      (if 0 < (match quantileQ (1/4) (df.rows.filterMap (fun r => r.quantity_tons)),
                    quantileQ (3/4) (df.rows.filterMap (fun r => r.quantity_tons)) with
              | some q1, some q3 =>
                df.rows.countP (fun r =>
                  match r.quantity_tons with
                  | some q => decide (q < q1 - 3 * (q3 - q1)) ||
                              decide (q3 + 3 * (q3 - q1) < q)
                  | none => false)
              | _, _ => 0) then
        [.outliers (match quantileQ (1/4) (df.rows.filterMap (fun r => r.quantity_tons)),
                    quantileQ (3/4) (df.rows.filterMap (fun r => r.quantity_tons)) with
              | some q1, some q3 =>
                df.rows.countP (fun r =>
                  match r.quantity_tons with
                  | some q => decide (q < q1 - 3 * (q3 - q1)) ||
                              decide (q3 + 3 * (q3 - q1) < q)
                  | none => false)
              | _, _ => 0)] else []), ?_, ?_⟩
    · simp only [validate_production_data, h1, h2, h3]
      norm_num
    · intro v hv
      simp only [List.mem_append] at hv
      rcases hv with (hv | hv) | hv
      · revert hv
        split
        · intro hv
          rw [List.mem_singleton] at hv
          subst hv
          intro col q
          exact fun h => VMsg.noConfusion h
        · intro hv
          exact absurd hv (List.not_mem_nil v)
      · revert hv
        split
        · intro hv
          rw [List.mem_singleton] at hv
          subst hv
          intro col q
          exact fun h => VMsg.noConfusion h
        · intro hv
          exact absurd hv (List.not_mem_nil v)
      · revert hv
        split
        · intro hv
          rw [List.mem_singleton] at hv
          subst hv
          intro col q
          exact fun h => VMsg.noConfusion h
        · intro hv
          exact absurd hv (List.not_mem_nil v)

-- ============================================================================
-- Claims
-- ============================================================================

unseal Rat.mul Rat.inv Rat.add Rat.sub in
/-- C1: for `get_production_summary(region=None, period=p)` with a
forecast summary file present and nonempty, the claim expects
`forecast_comparison` to equal the all-region aggregate.  The code instead
raises `NameError` on the unbound `region_forecast`, swallows it with the
bare `except`, and returns `forecast_comparison = None`: evaluated at a
one-row summary file, the result field is `none` even though the
aggregation the claim (and the source's own "National level - aggregate
all regions" branch) prescribes is well-defined and nonempty. -/
theorem c1_theorem :
    env1.prodForecast =
      some [{ region := "Mbeya", historical_avg := 80, forecast_avg := 100,
              growth_pct := 25 }] ∧
    (get_production_summary env1 none "current").2.forecast_comparison =
      none ∧
    nationalForecastAgg
      [{ region := "Mbeya", historical_avg := 80, forecast_avg := 100,
         growth_pct := 25 }] =
      { forecast_avg_tons := 100, historical_avg_tons := 80,
        growth_percent := 25 } := by
  exact ⟨rfl, rfl, by decide⟩

set_option maxHeartbeats 2000000 in
unseal Rat.mul Rat.inv Rat.add Rat.sub in
/-- C2 (counterexample): two calls with identical arguments and identical
backing tables but different clock readings do not serialize identically —
the `generated_at` stamp (`datetime.now().isoformat()`) differs. -/
theorem c2_counterexample :
    (get_storage_status env2 none).2 ≠
      (get_storage_status { env2 with now := 1 } none).2 := by
  decide

/-- C2 (amended): every one of the eight analytics functions leaves the
environment (backing files and clock) unchanged, and a second call on the
state left by the first, with the same arguments, returns the identical
result record.  (As stated the claim fails only because the clock advances
between real calls, changing `generated_at`.) -/
theorem c2_theorem : ∀ (e : Env) (period crop : String)
    (region market grade warehouse : Option String),
    ((get_national_summary e period).1 = e ∧
     (get_national_summary ((get_national_summary e period).1) period).2 =
       (get_national_summary e period).2) ∧
    ((get_production_summary e region period).1 = e ∧
     (get_production_summary ((get_production_summary e region period).1)
         region period).2 =
       (get_production_summary e region period).2) ∧
    ((get_price_analysis e market grade).1 = e ∧
     (get_price_analysis ((get_price_analysis e market grade).1)
         market grade).2 =
       (get_price_analysis e market grade).2) ∧
    ((get_storage_status e warehouse).1 = e ∧
     (get_storage_status ((get_storage_status e warehouse).1) warehouse).2 =
       (get_storage_status e warehouse).2) ∧
    ((get_seasonal_pattern e crop).1 = e ∧
     (get_seasonal_pattern ((get_seasonal_pattern e crop).1) crop).2 =
       (get_seasonal_pattern e crop).2) ∧
    ((get_forecast_accuracy e).1 = e ∧
     (get_forecast_accuracy ((get_forecast_accuracy e).1)).2 =
       (get_forecast_accuracy e).2) ∧
    ((get_supply_demand_balance e).1 = e ∧
     (get_supply_demand_balance ((get_supply_demand_balance e).1)).2 =
       (get_supply_demand_balance e).2) ∧
    ((get_market_opportunities e).1 = e ∧
     (get_market_opportunities ((get_market_opportunities e).1)).2 =
       (get_market_opportunities e).2) := by
  exact fun e period crop region market grade warehouse =>
    ⟨⟨rfl, rfl⟩, ⟨rfl, rfl⟩, ⟨rfl, rfl⟩, ⟨rfl, rfl⟩, ⟨rfl, rfl⟩, ⟨rfl, rfl⟩,
     ⟨rfl, rfl⟩, ⟨rfl, rfl⟩⟩

set_option maxHeartbeats 2000000 in
unseal Rat.mul Rat.inv Rat.add Rat.sub in
/-- C4 (counterexample): with a single warehouse whose only storage record
is older than the 30-day window, `get_national_summary` still reports its
50 stored tons, while the claimed window-restricted computation yields 0 —
records older than the window do affect the totals. -/
theorem c4_counterexample :
    env4.storage.all (fun r => decide (r.date < env4.now - 30)) = true ∧
    (get_national_summary env4 "current").2.storage.total_stored_tons = 50 ∧
    roundTo DP_QUANTITY
      (spec_windowedTotalStored env4.now (comparisonPeriods "current")
        env4.storage) = 0 := by
  exact ⟨rfl, by decide, by decide⟩

/-- C4 (amended): the storage block of `get_national_summary` is computed
from the latest record per warehouse over the *entire* storage table: it
is independent of the period token, and the stored/capacity totals are the
sums over `latestStorage` of the full table. -/
theorem c4_theorem : ∀ (e : Env) (p : String),
    (get_national_summary e p).2.storage =
      (get_national_summary e "year").2.storage ∧
    (get_national_summary e p).2.storage.total_stored_tons =
      roundTo DP_QUANTITY
        (((latestStorage e.storage).map
          (fun r => r.quantity_stored_tons)).sum) ∧
    (get_national_summary e p).2.storage.total_capacity_tons =
      roundTo DP_QUANTITY
        (((latestStorage e.storage).map (fun r => r.capacity_tons)).sum) := by
  exact fun e p => ⟨rfl, rfl, rfl⟩

set_option maxHeartbeats 4000000 in
unseal Rat.mul Rat.inv Rat.add Rat.sub in
/-- C7: the spec's three-warehouse scenario: warehouse 1 (95%) is
overstocked, warehouse 2 (5%) understocked, warehouse 3 (60%) optimal;
category counts 1/1/1; exactly two alerts — overstocked/high naming W1 and
understocked/medium naming W2. -/
theorem c7_theorem :
    (get_storage_status env7 none).2 =
      { warehouse := "All Warehouses"
        national_summary :=
          { total_stored_tons := 160, total_capacity_tons := 300,
            utilization_percent := 533/10, active_warehouses := 3 }
        utilization_categories :=
          { optimal := 1, overstocked := 1, understocked := 1 }
        warehouse_status := .all
          [{ warehouse_id := "W1", region := "Mbeya",
             quantity_stored_tons := 95, capacity_tons := 100,
             utilization_percent := .fin 95 },
           { warehouse_id := "W2", region := "Mbeya",
             quantity_stored_tons := 5, capacity_tons := 100,
             utilization_percent := .fin 5 },
           { warehouse_id := "W3", region := "Mbeya",
             quantity_stored_tons := 60, capacity_tons := 100,
             utilization_percent := .fin 60 }]
        alerts :=
          [{ type := "overstocked", severity := "high",
             message := .overCapacity 1 STORAGE_CRITICAL_HIGH,
             warehouses := ["W1"] },
           { type := "understocked", severity := "medium",
             message := .underCapacity 1 STORAGE_CRITICAL_LOW,
             warehouses := ["W2"] }]
        generated_at := 100 } := by
  decide

set_option maxHeartbeats 1000000 in
unseal Rat.mul Rat.inv Rat.add Rat.sub in
/-- C8: whenever the trailing-7-day grade-A per-market means are exactly
Market1 ↦ 1000 and Market2 ↦ 1200, `get_market_opportunities` returns a
full report whose arbitrage opportunity sells at Market2, buys at Market1,
with gap 200 TZS, margin 20.0 % and the "Strong opportunity" tier
(> 15 %); and with fewer than two markets carrying grade-A data in that
window it returns the explicit insufficient-data result. -/
theorem c8_theorem :
    (∀ e : Env,
      marketPricesGradeA e.now e.prices =
        [("Market1", 1000), ("Market2", 1200)] →
      ∃ rep, (get_market_opportunities e).2 = .report rep ∧
        rep.arbitrage_opportunity =
          { buy_market := "Market1", buy_price_tzs := 1000,
            sell_market := "Market2", sell_price_tzs := 1200,
            price_gap_tzs := 200, profit_margin_percent := 20,
            recommendation := "Strong opportunity" }) ∧
    (∀ e : Env, (marketPricesGradeA e.now e.prices).length < 2 →
      (get_market_opportunities e).2 = .insufficient) := by
  constructor
  · intro e h
    simp only [get_market_opportunities, load_price_data,
      load_production_forecasts, load_price_forecasts, h]
    norm_num
    decide
  · intro e h
    simp only [get_market_opportunities, load_price_data,
      load_production_forecasts, load_price_forecasts, if_pos h]

set_option maxHeartbeats 1000000 in
unseal Rat.mul Rat.inv Rat.add Rat.sub in
/-- C8 (witness): both branches of the theorem instantiated — the two
fixture tables realize the hypotheses. -/
theorem c8_witness :
    (∃ rep, (get_market_opportunities env8a).2 = .report rep ∧
      rep.arbitrage_opportunity =
        { buy_market := "Market1", buy_price_tzs := 1000,
          sell_market := "Market2", sell_price_tzs := 1200,
          price_gap_tzs := 200, profit_margin_percent := 20,
          recommendation := "Strong opportunity" }) ∧
    (get_market_opportunities env8b).2 = .insufficient := by
  constructor
  · exact c8_theorem.1 env8a (by decide)
  · exact c8_theorem.2 env8b (by decide)

set_option maxHeartbeats 1000000 in
unseal Rat.mul Rat.inv Rat.add Rat.sub in
/-- C9 (counterexample): production totals 1,2,3 against monthly mean
prices 1,2,1 give three joined months with a Pearson correlation of
exactly 0; the claim requires the field to be present, but
`round(c, 3) if c else None` treats `0.0` as falsy and reports `None`. -/
theorem c9_counterexample :
    2 < (sdbMonthlyPairs env9.production env9.prices).length ∧
    (get_supply_demand_balance env9).2.correlation_analysis.price_production_correlation
      = CorrField.absent := by
  constructor
  · decide
  · decide

/-- C9 (amended): the reported `price_production_correlation` is absent
iff fewer than three joined months exist, or the correlation numerator is
exactly zero while both variances are nonzero (a zero float correlation is
falsy); with a vanishing variance the correlation is NaN — truthy — and is
reported. -/
theorem c9_theorem : ∀ e : Env,
    (get_supply_demand_balance e).2.correlation_analysis.price_production_correlation
        = CorrField.absent ↔
      ((sdbMonthlyPairs e.production e.prices).length ≤ 2 ∨
       (covSum (sdbMonthlyPairs e.production e.prices) = 0 ∧
        varSumFst (sdbMonthlyPairs e.production e.prices) ≠ 0 ∧
        varSumSnd (sdbMonthlyPairs e.production e.prices) ≠ 0)) := by
  intro e
  have hfield :
      (get_supply_demand_balance e).2.correlation_analysis.price_production_correlation
        = corrFieldOf (sdbMonthlyPairs e.production e.prices) := rfl
  rw [hfield]
  unfold corrFieldOf
  by_cases h1 : 2 < (sdbMonthlyPairs e.production e.prices).length
  · rw [if_pos h1]
    by_cases h2 : varSumFst (sdbMonthlyPairs e.production e.prices) = 0 ∨
        varSumSnd (sdbMonthlyPairs e.production e.prices) = 0
    · rw [if_pos h2]
      apply iff_of_false (by simp)
      rintro (h | ⟨_, hx, hy⟩)
      · omega
      · rcases h2 with h2 | h2
        · exact hx h2
        · exact hy h2
    · rw [if_neg h2]
      push_neg at h2
      by_cases h3 : covSum (sdbMonthlyPairs e.production e.prices) = 0
      · rw [if_pos h3]
        exact iff_of_true rfl (Or.inr ⟨h3, h2.1, h2.2⟩)
      · rw [if_neg h3]
        apply iff_of_false (by simp)
        rintro (h | ⟨hc, _, _⟩)
        · omega
        · exact h3 hc
  · rw [if_neg h1]
    exact iff_of_true rfl (Or.inl (by omega))

set_option maxHeartbeats 1000000 in
unseal Rat.mul Rat.inv Rat.add Rat.sub in
/-- C10: a `get_storage_status(w)` call for a warehouse identifier
matching no storage record returns normally: no matching warehouse record
(`warehouse_status` is the absent value, not an error), an empty alert
list, all three utilization category counts 0, and zero national totals
with `utilization_percent = 0`. -/
theorem c10_theorem : ∀ (e : Env) (w : String),
    w ∉ e.storage.map (fun r => r.warehouse_id) →
    (get_storage_status e (some w)).2 =
      { warehouse := w
        national_summary :=
          { total_stored_tons := 0, total_capacity_tons := 0,
            utilization_percent := 0, active_warehouses := 0 }
        utilization_categories :=
          { optimal := 0, overstocked := 0, understocked := 0 }
        warehouse_status := .missing
        alerts := []
        generated_at := e.now } := by
  intro e w h
  have hfil : (latestStorage e.storage).filter
      (fun r => r.warehouse_id == w) = [] := by
    rw [List.filter_eq_nil_iff]
    intro r hr
    have : r.warehouse_id ∈ e.storage.map (fun s => s.warehouse_id) :=
      List.mem_map_of_mem _ (mem_of_mem_latestStorage hr)
    simp only [beq_iff_eq]
    intro heq
    exact h (heq ▸ this)
  simp only [get_storage_status, load_storage_data, hfil, warehouseRecords,
    List.map_nil, List.filter_nil, List.sum_nil, List.length_nil,
    Option.getD_some]
  norm_num [roundTo, pyRound]

set_option maxHeartbeats 1000000 in
unseal Rat.mul Rat.inv Rat.add Rat.sub in
/-- C10 (witness): querying warehouse "W9" against a table that only
knows "W1". -/
theorem c10_witness :
    (get_storage_status env10 (some "W9")).2 =
      { warehouse := "W9"
        national_summary :=
          { total_stored_tons := 0, total_capacity_tons := 0,
            utilization_percent := 0, active_warehouses := 0 }
        utilization_categories :=
          { optimal := 0, overstocked := 0, understocked := 0 }
        warehouse_status := .missing
        alerts := []
        generated_at := 100 } :=
  c10_theorem env10 "W9" (by decide)

set_option maxHeartbeats 1000000 in
unseal Rat.mul Rat.inv Rat.add Rat.sub in
/-- C3 (counterexample): `validate_storage_data` is not pure — after the
call the caller's dataframe has gained a `utilization` column
(`df['utilization'] = stored / capacity * 100`), so the table differs
from what was passed in. -/
theorem c3_counterexample :
    (validate_storage_data dfStor1).1 ≠ dfStor1 ∧
    (validate_storage_data dfStor1).1.cols =
      ["date", "warehouse_id", "quantity_stored_tons", "capacity_tons",
       "utilization"] := by
  constructor
  · decide
  · decide

/-- C3 (amended): the production, price and forecast validators return
the caller's table unchanged (with dates modelled as already-parsed
values, the in-place `pd.to_datetime` coercion is the identity);
`validate_storage_data` additionally appends a `utilization` column on its
main path — leaving every other cell untouched — and leaves the table
unchanged on the early-return paths. -/
theorem c3_theorem : ∀ (now : ℤ) (dfp : VProdTable) (dfpr : VPriceTable)
    (dff : VForeTable) (ftype : String) (dfs : VStorTable),
    (validate_production_data now dfp).1 = dfp ∧
    (validate_price_data now dfpr).1 = dfpr ∧
    (validate_forecast_data dff ftype).1 = dff ∧
    (storMainPath dfs = true → "utilization" ∉ dfs.cols →
      (validate_storage_data dfs).1.cols = dfs.cols ++ ["utilization"] ∧
      (validate_storage_data dfs).1.rows.map VStorRow.dropUtil =
        dfs.rows.map VStorRow.dropUtil ∧
      (validate_storage_data dfs).1 ≠ dfs) ∧
    (storMainPath dfs = false → (validate_storage_data dfs).1 = dfs) := by
  intro now dfp dfpr dff ftype dfs
  refine ⟨?_, ?_, ?_, ?_, ?_⟩
  · simp only [validate_production_data,
      apply_ite (Prod.fst (α := VProdTable) (β := ValidationResult))]
    simp [ite_self]
  · simp only [validate_price_data,
      apply_ite (Prod.fst (α := VPriceTable) (β := ValidationResult))]
    simp [ite_self]
  · simp only [validate_forecast_data,
      apply_ite (Prod.fst (α := VForeTable) (β := ValidationResult))]
    simp [ite_self]
  · intro hpath hutil
    simp only [storMainPath, Bool.and_eq_true, bne_iff_ne, ne_eq,
      beq_iff_eq, Bool.not_eq_true'] at hpath
    obtain ⟨⟨h1, h2⟩, h3⟩ := hpath
    have hmain : (validate_storage_data dfs).1 =
        { cols := storMutatedCols dfs.cols,
          rows := storMutatedRows dfs.rows } := by
      simp only [validate_storage_data, h1, h2, h3]
      norm_num
    rw [hmain]
    have hcols : storMutatedCols dfs.cols = dfs.cols ++ ["utilization"] := by
      unfold storMutatedCols
      rw [if_neg (by simpa using hutil)]
    refine ⟨hcols, ?_, ?_⟩
    · simp only [storMutatedRows, List.map_map]
      rfl
    · intro heq
      have hc := congrArg VStorTable.cols heq
      rw [hcols] at hc
      simp at hc
  · intro hpath
    unfold validate_storage_data
    by_cases h1 : dfs.rows.length = 0
    · rw [if_pos h1]
    · rw [if_neg h1]
      by_cases h2 : 0 < (requiredStorCols.filter
          (fun c => !dfs.cols.contains c)).length
      · rw [if_pos h2]
      · rw [if_neg h2]
        by_cases h3 : dfs.rows.any (fun r => r.date == .malformed) = true
        · rw [if_pos h3]
        · exfalso
          simp only [Bool.not_eq_true] at h3
          have hlen0 : (requiredStorCols.filter
              (fun c => !dfs.cols.contains c)).length = 0 := by omega
          have hT : storMainPath dfs = true := by
            simp only [storMainPath, Bool.and_eq_true, bne_iff_ne, ne_eq,
              beq_iff_eq, Bool.not_eq_true']
            exact ⟨⟨h1, hlen0⟩, h3⟩
          rw [hpath] at hT
          exact Bool.false_ne_true hT

/-- C3 (witness): the theorem instantiated at concrete tables; the
storage fixture satisfies the main-path hypotheses. -/
theorem c3_witness :
    (validate_production_data 100 dfProd0).1 = dfProd0 ∧
    (validate_price_data 100 dfPrice0).1 = dfPrice0 ∧
    (validate_forecast_data dfFore0 "production").1 = dfFore0 ∧
    (validate_storage_data dfStor1).1.cols = dfStor1.cols ++ ["utilization"] := by
  have h := c3_theorem 100 dfProd0 dfPrice0 dfFore0 "production" dfStor1
  exact ⟨h.1, h.2.1, h.2.2.1, (h.2.2.2.1 (by decide) (by decide)).1⟩

set_option maxHeartbeats 1000000 in
unseal Rat.mul Rat.inv Rat.add Rat.sub in
/-- C5 (counterexample): a storage table whose only rule violation is
`quantity_stored_tons > capacity_tons` in one row still validates —
`is_valid()` is `true`, because the stored-greater-than-capacity condition
adds a *warning*, not an error. -/
theorem c5_counterexample :
    0 < storOverCount dfStor1.rows ∧
    (validate_storage_data dfStor1).2.errors = [] ∧
    (validate_storage_data dfStor1).2.is_valid = true := by
  refine ⟨by decide, by decide, by decide⟩

/-- C5 (amended): the stored-greater-than-capacity condition never
contributes to the error list; on the main path it appends an
`exceedCapacity` entry to the *warning* list whenever some row exceeds
its capacity, and a table whose negative-quantity, non-positive-capacity
and missing-value error checks all pass is valid regardless of it. -/
theorem c5_theorem : ∀ df : VStorTable,
    (∀ q, VMsg.exceedCapacity q ∉ (validate_storage_data df).2.errors) ∧
    (storMainPath df = true →
      (0 < storOverCount df.rows →
        VMsg.exceedCapacity (storOverCount df.rows) ∈
          (validate_storage_data df).2.warnings) ∧
      (storNegCount df.rows = 0 → storNonposCapCount df.rows = 0 →
        (storAuditPair df).1 = [] →
        (validate_storage_data df).2.errors = [] ∧
        (validate_storage_data df).2.is_valid = true)) := by
  intro df
  constructor
  · intro q
    unfold validate_storage_data
    by_cases h1 : df.rows.length = 0
    · rw [if_pos h1]; simp
    · rw [if_neg h1]
      by_cases h2 : 0 < (requiredStorCols.filter
          (fun c => !df.cols.contains c)).length
      · rw [if_pos h2]; simp
      · rw [if_neg h2]
        by_cases h3 : df.rows.any (fun r => r.date == .malformed) = true
        · rw [if_pos h3]; simp
        · rw [if_neg h3]
          simp only [List.mem_append, not_or]
          refine ⟨⟨?_, ?_⟩, ?_⟩
          · split <;> simp
          · split <;> simp
          · intro hmem
            rcases mem_missingAudit_fst.mp hmem with ⟨pp, _, _, _, heq⟩
            exact VMsg.noConfusion heq
  · intro hpath
    simp only [storMainPath, Bool.and_eq_true, bne_iff_ne, ne_eq,
      beq_iff_eq, Bool.not_eq_true'] at hpath
    obtain ⟨⟨h1, h2⟩, h3⟩ := hpath
    have hmain := validate_storage_data_main df h1 h2 h3
    constructor
    · intro hover
      rw [hmain]
      simp only [List.mem_append, if_pos hover, List.mem_cons]
      tauto
    · intro hneg hnonpos haudit
      rw [hmain]
      simp only [hneg, hnonpos, haudit]
      norm_num [ValidationResult.is_valid]

set_option maxHeartbeats 1000000 in
unseal Rat.mul Rat.inv Rat.add Rat.sub in
/-- C5 (witness): a one-row fixture storing 120 of 100 tons: the
over-capacity warning fires and the table is nevertheless valid. -/
theorem c5_witness :
    VMsg.exceedCapacity (storOverCount dfStor2.rows) ∈
      (validate_storage_data dfStor2).2.warnings ∧
    (validate_storage_data dfStor2).2.is_valid = true := by
  have h := c5_theorem dfStor2
  have h2 := h.2 (by decide)
  exact ⟨h2.1 (by decide), (h2.2 (by decide) (by decide) (by decide)).2⟩

set_option maxHeartbeats 4000000 in
unseal Rat.mul Rat.inv Rat.add Rat.sub in
/-- C6 (counterexample): 20 rows with exactly one missing `quantity_tons`
cell is exactly 5% missing; the claim requires a warning naming the
column (5 ≤ m ≤ 20), but the code's strict `pct > 5` comparison adds
nothing — the validator returns with no warnings and no errors at all. -/
theorem c6_counterexample :
    prodMissingPct "quantity_tons" dfProd6 = 5 ∧
    (validate_production_data 100 dfProd6).2.errors = [] ∧
    (validate_production_data 100 dfProd6).2.warnings = [] := by
  refine ⟨by decide, by decide, by decide⟩

/-- C6 (amended): for a table on the validator's main path and any of its
columns with missing percentage m: m > 20 adds an error naming the column
(reporting m to one decimal place), 5 < m ≤ 20 adds such a warning, and
m ≤ 5 — including the boundary m = 5 — adds neither. -/
theorem c6_theorem : ∀ (now : ℤ) (df : VProdTable) (c : String),
    prodMainPath df = true → c ∈ df.cols →
    ((20 < prodMissingPct c df →
       VMsg.missingValues c (roundTo 1 (prodMissingPct c df)) ∈
         (validate_production_data now df).2.errors) ∧
     (5 < prodMissingPct c df → prodMissingPct c df ≤ 20 →
       VMsg.missingValues c (roundTo 1 (prodMissingPct c df)) ∈
         (validate_production_data now df).2.warnings) ∧
     (prodMissingPct c df ≤ 5 →
       ∀ q, VMsg.missingValues c q ∉ (validate_production_data now df).2.errors ∧
            VMsg.missingValues c q ∉ (validate_production_data now df).2.warnings)) := by
  intro now df c hpath hc
  simp only [prodMainPath, Bool.and_eq_true, bne_iff_ne, ne_eq,
    beq_iff_eq, Bool.not_eq_true'] at hpath
  obtain ⟨⟨h1, h2⟩, h3⟩ := hpath
  obtain ⟨herr, pre, hwarn, hpre⟩ :=
    validate_production_data_lists now df h1 h2 h3
  have hcntpos : ∀ x : ℚ, x < prodMissingPct c df →
      0 < prodMissingCount c df.rows → True := fun _ _ _ => trivial
  have hmem : (c, prodMissingCount c df.rows) ∈
      df.cols.map (fun c' => (c', prodMissingCount c' df.rows)) :=
    List.mem_map_of_mem _ hc
  have hpct : ((prodMissingCount c df.rows : ℚ) / (df.rows.length : ℚ) * 100)
      = prodMissingPct c df := rfl
  have hpos_of : 0 < prodMissingPct c df → 0 < prodMissingCount c df.rows := by
    intro hgt
    by_contra hz
    have hz0 : prodMissingCount c df.rows = 0 := by omega
    rw [prodMissingPct, hz0] at hgt
    norm_num at hgt
  refine ⟨?_, ?_, ?_⟩
  · intro h20
    rw [herr]
    refine List.mem_append.mpr (Or.inr ?_)
    refine mem_missingAudit_fst.mpr
      ⟨(c, prodMissingCount c df.rows), hmem, ?_, ?_, ?_⟩
    · exact hpos_of (by linarith)
    · rw [hpct]; exact h20
    · rw [hpct]
  · intro h5 hle20
    rw [hwarn]
    refine List.mem_append.mpr (Or.inr ?_)
    refine mem_missingAudit_snd.mpr
      ⟨(c, prodMissingCount c df.rows), hmem, ?_, ?_, ?_, ?_⟩
    · exact hpos_of (by linarith)
    · rw [hpct]; exact not_lt.mpr hle20
    · rw [hpct]; exact h5
    · rw [hpct]
  · intro hle q
    constructor
    · rw [herr]
      intro hmem2
      rcases List.mem_append.mp hmem2 with hAB | hAudit
      · rcases List.mem_append.mp hAB with hA | hB
        · revert hA; split <;> simp
        · revert hB; split <;> simp
      · rcases mem_missingAudit_fst.mp hAudit with ⟨p, hpmem, hppos, hp20, heq⟩
        rcases List.mem_map.mp hpmem with ⟨c', hc', rfl⟩
        have hcc : c = c' := by
          injection heq
        subst hcc
        rw [hpct] at hp20
        linarith
    · rw [hwarn]
      intro hmem2
      rcases List.mem_append.mp hmem2 with hPre | hAudit
      · exact hpre _ hPre c q rfl
      · rcases mem_missingAudit_snd.mp hAudit with
          ⟨p, hpmem, hppos, hp20, hp5, heq⟩
        rcases List.mem_map.mp hpmem with ⟨c', hc', rfl⟩
        have hcc : c = c' := by
          injection heq
        subst hcc
        rw [hpct] at hp5
        linarith

set_option maxHeartbeats 4000000 in
unseal Rat.mul Rat.inv Rat.add Rat.sub in
/-- C6 (witness): 10 rows with `region` missing in 3 (30% → error) and
`quantity_tons` missing in 1 (10% → warning). -/
theorem c6_witness :
    VMsg.missingValues "region"
      (roundTo 1 (prodMissingPct "region" dfProd6w)) ∈
      (validate_production_data 100 dfProd6w).2.errors ∧
    VMsg.missingValues "quantity_tons"
      (roundTo 1 (prodMissingPct "quantity_tons" dfProd6w)) ∈
      (validate_production_data 100 dfProd6w).2.warnings := by
  have h1 := c6_theorem 100 dfProd6w "region" (by decide) (by decide)
  have h2 := c6_theorem 100 dfProd6w "quantity_tons" (by decide) (by decide)
  exact ⟨h1.1 (by decide), h2.2.1 (by decide) (by decide)⟩
